import Mathlib

/-!
Verification development for the phoenix-wwv WWV/WWVH detection engine.

Shallow embedding of the detection core: the C sources are translated into
Lean definitions over exact rational arithmetic (C float values become ℚ,
machine integers become ℕ/ℤ).  Resource fields of the C structs (FFT
handles, sample buffers, FILE pointers, callbacks, wall clocks) carry no
state-machine information and are omitted from the embedded records; every
field that the embedded functions read or write is kept, with the source
field names.  printf/CSV/telemetry calls have no effect on detector state
and are dropped.  Callback invocations are modelled as the event value the
function would hand to the callback (an Option / sum type in the result).
-/

namespace PhoenixWWV

/-! ## Rational helpers mirroring C float primitives

The C sources use fmodf; fmod is exact for IEEE floats, and we model the
float values themselves as exact rationals, so fmodf(x, y) becomes
x - y * trunc (x / y) with trunc rounding toward zero, exactly the C
definition of fmod for y > 0. -/

/-- Truncation toward zero of a rational, as C float-to-int and fmod do. -/
def ratTrunc (q : ℚ) : ℤ :=
  if 0 ≤ q then ⌊q⌋ else ⌈q⌉

/-- Model of C fmodf for a positive modulus. -/
def fmodf (x y : ℚ) : ℚ :=
  x - y * (ratTrunc (x / y) : ℚ)


/-! ## FFT processor (src/core/fft_processor.c)

kiss_fft is a third-party library vendored outside this repository; its
kiss_fft_alloc accepts any positive FFT size (mixed-radix), so allocation
is modelled as succeeding for the sizes fft_processor_create passes it.
Null C pointers are modelled as Option.none arguments. -/

/-- Configuration part of struct fft_processor (the kiss_fft resources and
scratch buffers carry no observable state for the embedded API). -/
structure FftProcessor where
  fft_size : ℤ
  sample_rate : ℚ
  hz_per_bin : ℚ
deriving DecidableEq

/-- fft_processor_create: rejects fft_size <= 0 and sample_rate <= 0 and
otherwise builds the processor with hz_per_bin = sample_rate / fft_size.
There is no power-of-two test in the source. -/
def fft_processor_create (fft_size : ℤ) (sample_rate : ℚ) : Option FftProcessor :=
  if fft_size ≤ 0 ∨ sample_rate ≤ 0 then Option.none
  else Option.some ⟨fft_size, sample_rate, sample_rate / (fft_size : ℚ)⟩

/-- Guard of fft_processor_process: the C function only rejects null
pointers (fft, i_samples, q_samples); it takes no length argument and
reads fft->fft_size entries from each array unconditionally. -/
def fft_processor_process_accepts (fft : Option FftProcessor)
    (i_samples q_samples : Option (List ℚ)) : Bool :=
  match fft, i_samples, q_samples with
  | Option.some _, Option.some _, Option.some _ => true
  | _, _, _ => false

/-- The spec-side predicate for C7, following the spec words
"non-power-of-two size". -/
def spec_power_of_two_size (n : ℤ) : Prop :=
  ∃ k : ℕ, n = 2 ^ k

/-! ## Tone tracker FFT helpers (src/detection/tone/tone_fft_helpers.c) -/

/-- tone_parabolic_peak.  The C magnitude array is modelled as a total
function ℤ → ℚ (the function only reads bins peak_bin-1 .. peak_bin+1,
which the edge guard keeps inside 0 .. fft_size-1). -/
def tone_parabolic_peak (mag : ℤ → ℚ) (peak_bin fft_size : ℤ) : ℚ :=
  if peak_bin ≤ 0 ∨ peak_bin ≥ fft_size - 1 then (peak_bin : ℚ)
  else
    let alpha := mag (peak_bin - 1)
    let beta := mag peak_bin
    let gamma := mag (peak_bin + 1)
    let denom := alpha - 2 * beta + gamma
    if |denom| < 1 / 10 ^ 10 then (peak_bin : ℚ)
    else (peak_bin : ℚ) + (1 / 2) * (alpha - gamma) / denom

/-- The magnitude triplet of the C6 scenario: bins 1, 2, 3 hold
alpha = 9.91, beta = 10.0, gamma = 9.73 with the peak at bin 2. -/
def c6_triplet_mag : ℤ → ℚ := fun i =>
  if i = 1 then 991 / 100
  else if i = 2 then 10
  else if i = 3 then 973 / 100
  else 0

/-! ## BCD symbol classifier (src/correlation/bcd_symbol_classifier.c) -/

inductive BcdCorrSymbol
  | sym_none
  | sym_zero
  | sym_one
  | sym_marker
deriving DecidableEq

/-- VALID_P_POSITIONS without the -1 sentinel that terminates the C scan. -/
def VALID_P_POSITIONS : List ℤ := [0, 9, 19, 29, 39, 49, 59]

/-- bcd_symbol_is_valid_p_position: the C loop over the sentinel-terminated
array is membership in the position list. -/
def bcd_symbol_is_valid_p_position (second : ℤ) : Bool :=
  VALID_P_POSITIONS.contains second

/-- Modelled from the spec: the symbol band limits BCD_SYMBOL_ZERO_MAX_MS,
BCD_SYMBOL_ONE_MAX_MS and BCD_SYMBOL_MARKER_MAX_MS are defined in
bcd_correlator.h, which is absent from the sources; the spec gives the
bands [100, 350], (350, 650] and (650, 900]. -/
def BCD_SYMBOL_ZERO_MAX_MS : ℚ := 350

/-- Modelled from the spec: see BCD_SYMBOL_ZERO_MAX_MS. -/
def BCD_SYMBOL_ONE_MAX_MS : ℚ := 650

/-- Modelled from the spec: see BCD_SYMBOL_ZERO_MAX_MS. -/
def BCD_SYMBOL_MARKER_MAX_MS : ℚ := 900

/-- bcd_symbol_classify_duration with Phase 8 position gating. -/
def bcd_symbol_classify_duration (duration_ms : ℚ) (second : ℤ) : BcdCorrSymbol :=
  if duration_ms < 100 then .sym_none
  else if duration_ms ≤ BCD_SYMBOL_ZERO_MAX_MS then .sym_zero
  else if duration_ms ≤ BCD_SYMBOL_ONE_MAX_MS then .sym_one
  else if duration_ms ≤ BCD_SYMBOL_MARKER_MAX_MS then
    if bcd_symbol_is_valid_p_position second then .sym_marker else .sym_one
  else
    if bcd_symbol_is_valid_p_position second then .sym_marker else .sym_one

/-! ## BCD correlator window state (include/correlation/bcd_correlator_internal.h)

The sync_detector pointer, callback pointers and FILE handles of
struct bcd_correlator are resources, not window state, and are omitted;
the emitted bcd_symbol_event_t is returned instead of being passed to the
callback. -/

inductive BcdCorrFsmState
  | acquiring
  | tentative
  | tracking
deriving DecidableEq

/-- The const char *source strings "NONE"/"TIME"/"FREQ"/"BOTH". -/
inductive BcdSourceTag
  | src_none
  | src_time
  | src_freq
  | src_both
deriving DecidableEq

/-- bcd_symbol_event_t (note: the C struct carries no second field). -/
structure BcdSymbolEvent where
  symbol : BcdCorrSymbol
  timestamp_ms : ℚ
  duration_ms : ℚ
  confidence : ℚ
  src : BcdSourceTag
deriving DecidableEq

structure BcdCorrelator where
  window_open : Bool
  current_second : ℤ
  window_start_ms : ℚ
  window_anchor_ms : ℚ
  time_energy_sum : ℚ
  time_duration_sum : ℚ
  time_event_count : ℤ
  time_first_ms : ℚ
  time_last_ms : ℚ
  freq_energy_sum : ℚ
  freq_duration_sum : ℚ
  freq_event_count : ℤ
  freq_first_ms : ℚ
  freq_last_ms : ℚ
  last_symbol_ms : ℚ
  symbol_count : ℤ
  good_intervals : ℤ
  state : BcdCorrFsmState
deriving DecidableEq

def WINDOW_DURATION_MS : ℚ := 1000

def MIN_EVENTS_FOR_SYMBOL : ℤ := 2

def ENERGY_THRESHOLD_LOW : ℚ := 1 / 1000

/-- bcd_window_estimate_pulse_duration (bcd_symbol_classifier.c). -/
def bcd_window_estimate_pulse_duration (corr : BcdCorrelator) : ℚ :=
  let time_span : ℚ :=
    if corr.time_event_count ≥ 2 then corr.time_last_ms - corr.time_first_ms
    else if corr.time_event_count = 1 then corr.time_duration_sum
    else 0
  let freq_span : ℚ :=
    if corr.freq_event_count ≥ 2 then corr.freq_last_ms - corr.freq_first_ms
    else if corr.freq_event_count = 1 then corr.freq_duration_sum
    else 0
  if time_span > 0 ∧ freq_span > 0 then (time_span + freq_span) / 2
  else if time_span > 0 then time_span
  else if freq_span > 0 then freq_span
  else
    let p1 : ℚ × ℤ :=
      if corr.time_event_count > 0 then
        (corr.time_duration_sum / (corr.time_event_count : ℚ), 1)
      else (0, 0)
    let p2 : ℚ × ℤ :=
      if corr.freq_event_count > 0 then
        (p1.1 + corr.freq_duration_sum / (corr.freq_event_count : ℚ), p1.2 + 1)
      else p1
    if p2.2 > 0 then p2.1 / (p2.2 : ℚ) else 0

/-- close_window from src/correlation/bcd_correlator.c.  The C function
mutates corr field by field; the fields are independent, so the final
state is assembled as one record update, and the callback invocation
guarded by symbol != BCD_CORR_SYM_NONE becomes the Option result. -/
def close_window (corr : BcdCorrelator) : BcdCorrelator × Option BcdSymbolEvent :=
  if ¬ corr.window_open then (corr, Option.none)
  else
    let total_events := corr.time_event_count + corr.freq_event_count
    let total_energy := corr.time_energy_sum + corr.freq_energy_sum
    let confidence0 : ℚ :=
      if corr.time_event_count > 0 ∧ corr.freq_event_count > 0 then 1
      else if corr.time_event_count > 0 then 6 / 10
      else if corr.freq_event_count > 0 then 6 / 10
      else 0
    let src : BcdSourceTag :=
      if corr.time_event_count > 0 ∧ corr.freq_event_count > 0 then .src_both
      else if corr.time_event_count > 0 then .src_time
      else if corr.freq_event_count > 0 then .src_freq
      else .src_none
    let duration_ms := bcd_window_estimate_pulse_duration corr
    let symbol : BcdCorrSymbol :=
      if total_events ≥ MIN_EVENTS_FOR_SYMBOL ∧ total_energy > ENERGY_THRESHOLD_LOW then
        bcd_symbol_classify_duration duration_ms corr.current_second
      else if total_events > 0 then
        bcd_symbol_classify_duration duration_ms corr.current_second
      else .sym_none
    let confidence : ℚ :=
      if total_events ≥ MIN_EVENTS_FOR_SYMBOL ∧ total_energy > ENERGY_THRESHOLD_LOW then confidence0
      else if total_events > 0 then confidence0 * (1 / 2)
      else confidence0
    let symbol_timestamp_ms := corr.window_start_ms + WINDOW_DURATION_MS / 2
    let interval_ms : ℚ :=
      if corr.last_symbol_ms > 0 then symbol_timestamp_ms - corr.last_symbol_ms else 0
    let good_intervals : ℤ :=
      if corr.last_symbol_ms > 0 ∧ interval_ms ≥ 900 ∧ interval_ms ≤ 1100 then
        corr.good_intervals + 1
      else corr.good_intervals
    let fsm : BcdCorrFsmState :=
      if good_intervals ≥ 3 then .tracking
      else if corr.symbol_count ≥ 1 then .tentative
      else corr.state
    let st := { corr with
      good_intervals := good_intervals
      state := fsm
      last_symbol_ms := symbol_timestamp_ms
      symbol_count := corr.symbol_count + 1
      window_open := false }
    (st,
      if symbol ≠ BcdCorrSymbol.sym_none then
        Option.some ⟨symbol, symbol_timestamp_ms, duration_ms, confidence, src⟩
      else Option.none)

/-- bcd_window_close from src/correlation/bcd_window_manager.c.  Same
duplicated body as close_window, but the callback is invoked on every
window close, whether or not the symbol is BCD_CORR_SYM_NONE. -/
def bcd_window_close (corr : BcdCorrelator) : BcdCorrelator × Option BcdSymbolEvent :=
  if ¬ corr.window_open then (corr, Option.none)
  else
    let total_events := corr.time_event_count + corr.freq_event_count
    let total_energy := corr.time_energy_sum + corr.freq_energy_sum
    let confidence0 : ℚ :=
      if corr.time_event_count > 0 ∧ corr.freq_event_count > 0 then 1
      else if corr.time_event_count > 0 then 6 / 10
      else if corr.freq_event_count > 0 then 6 / 10
      else 0
    let src : BcdSourceTag :=
      if corr.time_event_count > 0 ∧ corr.freq_event_count > 0 then .src_both
      else if corr.time_event_count > 0 then .src_time
      else if corr.freq_event_count > 0 then .src_freq
      else .src_none
    let duration_ms := bcd_window_estimate_pulse_duration corr
    let symbol : BcdCorrSymbol :=
      if total_events ≥ MIN_EVENTS_FOR_SYMBOL ∧ total_energy > ENERGY_THRESHOLD_LOW then
        bcd_symbol_classify_duration duration_ms corr.current_second
      else if total_events > 0 then
        bcd_symbol_classify_duration duration_ms corr.current_second
      else .sym_none
    let confidence : ℚ :=
      if total_events ≥ MIN_EVENTS_FOR_SYMBOL ∧ total_energy > ENERGY_THRESHOLD_LOW then confidence0
      else if total_events > 0 then confidence0 * (1 / 2)
      else confidence0
    let symbol_timestamp_ms := corr.window_start_ms + WINDOW_DURATION_MS / 2
    let interval_ms : ℚ :=
      if corr.last_symbol_ms > 0 then symbol_timestamp_ms - corr.last_symbol_ms else 0
    let good_intervals : ℤ :=
      if corr.last_symbol_ms > 0 ∧ interval_ms ≥ 900 ∧ interval_ms ≤ 1100 then
        corr.good_intervals + 1
      else corr.good_intervals
    let fsm : BcdCorrFsmState :=
      if good_intervals ≥ 3 then .tracking
      else if corr.symbol_count ≥ 1 then .tentative
      else corr.state
    let st := { corr with
      good_intervals := good_intervals
      state := fsm
      last_symbol_ms := symbol_timestamp_ms
      symbol_count := corr.symbol_count + 1
      window_open := false }
    (st, Option.some ⟨symbol, symbol_timestamp_ms, duration_ms, confidence, src⟩)

/-! ## Minute-marker detector
(src/detection/marker/marker_state_machine.c, marker_detector.c,
detection/marker_internal.h)

MARKER_WINDOW_FRAMES and FRAME_DURATION_MS derive from MARKER_FFT_SIZE and
MARKER_SAMPLE_RATE in marker_detector.h, which is absent from the sources;
the window length W and the frame duration fd are therefore parameters of
the embedded functions (the spec puts W at about one second of frames). -/

namespace Marker

def MARKER_THRESHOLD_MULT : ℚ := 3

def MARKER_NOISE_ADAPT_RATE : ℚ := 1 / 1000

def MARKER_COOLDOWN_MS : ℚ := 30000

def MARKER_MAX_DURATION_MS : ℚ := 5000

def MARKER_WARMUP_FRAMES : ℕ := 200

def MARKER_WARMUP_ADAPT_RATE : ℚ := 1 / 50

def MARKER_MIN_STARTUP_MS : ℚ := 10000

def MARKER_FLASH_FRAMES : ℤ := 30

/-- Modelled from the spec: MARKER_MIN_DURATION_MS lives in the absent
marker_detector.h; marker_detector_create initialises min_duration_ms
from it with the source comment giving 500.0 (spec default >= 500 ms). -/
def MARKER_MIN_DURATION_MS : ℚ := 500

/-- MS_TO_FRAMES(ms): (int)(ms / FRAME_DURATION_MS + 0.5f), a C cast that
truncates toward zero. -/
def ms_to_frames (fd ms : ℚ) : ℤ := ratTrunc (ms / fd + 1 / 2)

inductive MarkerFsm
  | idle
  | in_marker
  | cooldown
deriving DecidableEq

/-- marker_event_t. -/
structure MarkerEvent where
  marker_number : ℤ
  timestamp_ms : ℚ
  since_last_marker_sec : ℚ
  accumulated_energy : ℚ
  peak_energy : ℚ
  duration_ms : ℚ
deriving DecidableEq

/-- struct marker_detector without its resource fields (fft, i/q buffers,
csv/debug FILEs, wwv_clock, callback).  energy_history is the W-element
circular buffer. -/
structure MarkerState where
  energy_history : List ℚ
  history_idx : ℕ
  history_count : ℕ
  accumulated_energy : ℚ
  baseline_energy : ℚ
  state : MarkerFsm
  current_energy : ℚ
  threshold : ℚ
  marker_start_frame : ℕ
  marker_peak_energy : ℚ
  marker_duration_frames : ℤ
  cooldown_frames : ℤ
  markers_detected : ℤ
  last_marker_frame : ℕ
  frame_count : ℕ
  start_frame : ℕ
  warmup_complete : Bool
  flash_frames_remaining : ℤ
  detection_enabled : Bool
  threshold_multiplier : ℚ
  noise_adapt_rate : ℚ
  min_duration_ms : ℚ
deriving DecidableEq

/-- update_accumulator (marker_state_machine.c): sliding-window sum over
the last W frame energies. -/
def update_accumulator (W : ℕ) (md : MarkerState) (energy : ℚ) : MarkerState :=
  let acc0 :=
    if md.history_count ≥ W then
      md.accumulated_energy - md.energy_history.getD md.history_idx 0
    else md.accumulated_energy
  { md with
    energy_history := md.energy_history.set md.history_idx energy
    accumulated_energy := acc0 + energy
    history_idx := (md.history_idx + 1) % W
    history_count := if md.history_count < W then md.history_count + 1 else md.history_count }

/-- marker_state_machine_run: 3-state FSM with sliding-window accumulator
and self-tracked baseline.  The uint64 frame difference
marker_start_frame - last_marker_frame is modelled as the exact integer
difference (in reachable states the start frame is not older than the
last recorded marker, so no uint64 wrap occurs). -/
def marker_state_machine_run (W : ℕ) (fd : ℚ) (md0 : MarkerState) :
    MarkerState × Option MarkerEvent :=
  let energy := md0.current_energy
  let frame := md0.frame_count
  let md := update_accumulator W md0 energy
  if ¬ md.warmup_complete then
    let b := md.baseline_energy + MARKER_WARMUP_ADAPT_RATE * (md.accumulated_energy - md.baseline_energy)
    ({ md with
        baseline_energy := b
        threshold := b * md.threshold_multiplier
        warmup_complete :=
          if frame ≥ md.start_frame + MARKER_WARMUP_FRAMES then true else md.warmup_complete },
      Option.none)
  else
    let timestamp0 := (md.frame_count : ℚ) * fd
    if timestamp0 < MARKER_MIN_STARTUP_MS then
      let b := md.baseline_energy + md.noise_adapt_rate * (md.accumulated_energy - md.baseline_energy)
      ({ md with baseline_energy := b, threshold := b * md.threshold_multiplier }, Option.none)
    else
      let md :=
        if md.state = MarkerFsm.idle then
          let b := md.baseline_energy + md.noise_adapt_rate * (md.accumulated_energy - md.baseline_energy)
          let b := if b < 1 / 1000 then 1 / 1000 else b
          { md with baseline_energy := b, threshold := b * md.threshold_multiplier }
        else md
      match md.state with
      | MarkerFsm.idle =>
        if md.accumulated_energy > md.threshold then
          ({ md with
              state := MarkerFsm.in_marker
              marker_start_frame := frame
              marker_peak_energy := md.accumulated_energy
              marker_duration_frames := 1 }, Option.none)
        else (md, Option.none)
      | MarkerFsm.in_marker =>
        let dur_frames := md.marker_duration_frames + 1
        let peak :=
          if md.accumulated_energy > md.marker_peak_energy then md.accumulated_energy
          else md.marker_peak_energy
        let md := { md with marker_duration_frames := dur_frames, marker_peak_energy := peak }
        let duration_ms := (dur_frames : ℚ) * fd
        let timed_out := duration_ms > MARKER_MAX_DURATION_MS
        if md.accumulated_energy < md.threshold ∨ timed_out then
          if duration_ms ≥ md.min_duration_ms ∧ duration_ms < MARKER_MAX_DURATION_MS then
            let timestamp_ms := (frame : ℚ) * fd
            let since_last : ℚ :=
              if md.last_marker_frame > 0 then
                ((md.marker_start_frame : ℚ) - (md.last_marker_frame : ℚ)) * fd / 1000
              else 0
            ({ md with
                markers_detected := md.markers_detected + 1
                flash_frames_remaining := MARKER_FLASH_FRAMES
                last_marker_frame := md.marker_start_frame
                state := MarkerFsm.cooldown
                cooldown_frames := ms_to_frames fd MARKER_COOLDOWN_MS },
              Option.some
                ⟨md.markers_detected + 1, timestamp_ms, since_last,
                  md.accumulated_energy, peak, duration_ms⟩)
          else
            ({ md with
                state := MarkerFsm.cooldown
                cooldown_frames := ms_to_frames fd MARKER_COOLDOWN_MS }, Option.none)
        else (md, Option.none)
      | MarkerFsm.cooldown =>
        let cf := md.cooldown_frames - 1
        ({ md with
            cooldown_frames := cf
            state := if cf ≤ 0 then MarkerFsm.idle else MarkerFsm.cooldown }, Option.none)

/-- State part of marker_detector_create (marker_detector.c): calloc zeroes
the struct, then the create function sets the listed fields. -/
def marker_detector_create_state (W : ℕ) : MarkerState where
  energy_history := List.replicate W 0
  history_idx := 0
  history_count := 0
  accumulated_energy := 0
  baseline_energy := 1 / 100
  state := MarkerFsm.idle
  current_energy := 0
  threshold := (1 / 100) * MARKER_THRESHOLD_MULT
  marker_start_frame := 0
  marker_peak_energy := 0
  marker_duration_frames := 0
  cooldown_frames := 0
  markers_detected := 0
  last_marker_frame := 0
  frame_count := 0
  start_frame := 0
  warmup_complete := false
  flash_frames_remaining := 0
  detection_enabled := true
  threshold_multiplier := MARKER_THRESHOLD_MULT
  noise_adapt_rate := MARKER_NOISE_ADAPT_RATE
  min_duration_ms := MARKER_MIN_DURATION_MS

/-- The per-frame slice of marker_detector_process_sample once the FFT
buffer fills: store the frame energy, run the state machine, bump
frame_count. -/
def marker_process_frame (W : ℕ) (fd : ℚ) (md : MarkerState) (energy : ℚ) : MarkerState :=
  let r := marker_state_machine_run W fd { md with current_energy := energy }
  { r.1 with frame_count := r.1.frame_count + 1 }

/-- marker_detector_set_threshold_mult: a void C function; out-of-range
values return with no mutation and no indication to the caller. -/
def marker_detector_set_threshold_mult (md : MarkerState) (mult : ℚ) : MarkerState :=
  if mult < 2 ∨ mult > 5 then md
  else
    { md with
        threshold_multiplier := mult
        threshold := md.baseline_energy * mult }

/-- marker_detector_set_noise_adapt_rate (void). -/
def marker_detector_set_noise_adapt_rate (md : MarkerState) (rate : ℚ) : MarkerState :=
  if rate < 1 / 10000 ∨ rate > 1 / 100 then md
  else { md with noise_adapt_rate := rate }

/-- marker_detector_set_min_duration_ms (void). -/
def marker_detector_set_min_duration_ms (md : MarkerState) (ms : ℚ) : MarkerState :=
  if ms < 300 ∨ ms > 700 then md
  else { md with min_duration_ms := ms }

end Marker

/-! ## Tick detector
(src/detection/tick_state_machine.c, tick_detector.c, tick_internal.h)

FRAME_DURATION_MS derives from TICK_FFT_SIZE and TICK_SAMPLE_RATE in the
absent tick_detector.h, so the frame duration fd is a parameter.  uint64
frame differences are modelled as exact integer differences (in reachable
states the minuend is never older than the subtrahend, so no wrap). -/

namespace Tick

def TICK_MIN_DURATION_MS : ℚ := 2

def TICK_MAX_DURATION_MS : ℚ := 50

def MARKER_MAX_DURATION_MS : ℚ := 1000

def TICK_COOLDOWN_MS : ℚ := 500

def TICK_NOISE_ADAPT_DOWN : ℚ := 1 / 500

def TICK_NOISE_ADAPT_UP : ℚ := 1 / 5000

def NOISE_FLOOR_MAX : ℚ := 5

/-- The literal 0.0001f lower clamp of tick_state_machine.c (named
NOISE_FLOOR_MIN in bcd_internal.h). -/
def NOISE_FLOOR_MIN : ℚ := 1 / 10000

def TICK_WARMUP_ADAPT_RATE : ℚ := 1 / 20

/-- TICK_HYSTERESIS_RATIO in tick_internal.h. -/
def TICK_HYSTERESIS : ℚ := 7 / 10

def TICK_THRESHOLD_MULT : ℚ := 2

def CORR_THRESHOLD_MULT : ℚ := 5

def MARKER_MIN_DURATION_MS : ℚ := 600

def MARKER_MAX_DURATION_MS_CHECK : ℚ := 1500

def MARKER_MIN_INTERVAL_MS : ℚ := 55000

def TICK_WARMUP_FRAMES : ℕ := 50

def TICK_FLASH_FRAMES : ℤ := 5

def TICK_HISTORY_SIZE : ℕ := 30

def TICK_AVG_WINDOW_MS : ℚ := 15000

def TICK_GATE_START_MS : ℚ := 0

def TICK_GATE_END_MS : ℚ := 100

def GATE_RECOVERY_MS : ℚ := 5000

/-- Modelled from the spec: TICK_FILTER_DELAY_MS lives in the absent
tick_detector.h; the spec gives the filter group delay as about 3 ms.
It only feeds the leading-edge field of tick_marker_event_t. -/
def TICK_FILTER_DELAY_MS : ℚ := 3

def ms_to_frames (fd ms : ℚ) : ℤ := ratTrunc (ms / fd + 1 / 2)

inductive TickFsm
  | idle
  | in_tick
  | cooldown
deriving DecidableEq

inductive EpochSource
  | epoch_source_none
  | epoch_source_tick_chain
  | epoch_source_marker
deriving DecidableEq

/-- tick_gate_t. -/
structure TickGate where
  epoch_ms : ℚ
  enabled : Bool
  last_tick_frame_gated : ℕ
  recovery_mode : Bool
deriving DecidableEq

/-- tick_event_t (field corr_ratio of the C struct is corr_ratio_val). -/
structure TickEvent where
  tick_number : ℤ
  timestamp_ms : ℚ
  interval_ms : ℚ
  duration_ms : ℚ
  peak_energy : ℚ
  avg_interval_ms : ℚ
  noise_floor : ℚ
  corr_peak : ℚ
  corr_ratio_val : ℚ
deriving DecidableEq

/-- tick_marker_event_t (field corr_ratio of the C struct is
corr_ratio_val). -/
structure TickMarkerEvent where
  marker_number : ℤ
  timestamp_ms : ℚ
  start_timestamp_ms : ℚ
  duration_ms : ℚ
  corr_ratio_val : ℚ
  interval_ms : ℚ
deriving DecidableEq

/-- What one frame of the state machine hands to the callbacks: at most
one of a tick event or a tick-marker event. -/
inductive TickEmit
  | no_event
  | tick (e : TickEvent)
  | marker (e : TickMarkerEvent)
deriving DecidableEq

/-- struct tick_detector without its resource fields (fft, sample and
template buffers, FILEs, wwv_clock, comb filter, callbacks).
corr_peak_offset is only written in the sample hot path and never read by
the embedded functions, so it is omitted. -/
structure TickState where
  corr_peak : ℚ
  corr_sum : ℚ
  corr_sum_count : ℤ
  corr_noise_floor : ℚ
  state : TickFsm
  noise_floor : ℚ
  threshold_high : ℚ
  threshold_low : ℚ
  current_energy : ℚ
  tick_start_frame : ℕ
  tick_peak_energy : ℚ
  tick_duration_frames : ℤ
  cooldown_frames : ℤ
  ticks_detected : ℤ
  ticks_rejected : ℤ
  markers_detected : ℤ
  last_tick_frame : ℕ
  last_marker_frame : ℕ
  frame_count : ℕ
  start_frame : ℕ
  warmup_complete : Bool
  tick_timestamps_ms : List ℚ
  tick_history_idx : ℕ
  tick_history_count : ℕ
  flash_frames_remaining : ℤ
  detection_enabled : Bool
  threshold_multiplier : ℚ
  adapt_alpha_down : ℚ
  adapt_alpha_up : ℚ
  min_duration_ms : ℚ
  gate : TickGate
  epoch_source : EpochSource
  epoch_confidence : ℚ
deriving DecidableEq

/-- tick_calculate_avg_interval (tick_detector.c).  The circular index
(idx - count + i + SIZE) % SIZE is computed with C int arithmetic; for
states with count <= SIZE the operand is nonnegative, matching Int.emod
here. -/
def tick_calculate_avg_interval (td : TickState) (current_time_ms : ℚ) : ℚ :=
  if td.tick_history_count < 2 then 0
  else
    let cutoff := current_time_ms - TICK_AVG_WINDOW_MS
    let r := (List.range td.tick_history_count).foldl
      (fun (acc : ℚ × ℤ × ℚ) i =>
        let idx := (((td.tick_history_idx : ℤ) - (td.tick_history_count : ℤ) + (i : ℤ)
            + (TICK_HISTORY_SIZE : ℤ)) % (TICK_HISTORY_SIZE : ℤ)).toNat
        let t := td.tick_timestamps_ms.getD idx 0
        if t ≥ cutoff then
          if acc.2.2 ≥ 0 then (acc.1 + (t - acc.2.2), acc.2.1 + 1, t)
          else (acc.1, acc.2.1, t)
        else acc)
      ((0 : ℚ), (0 : ℤ), (-1 : ℚ))
    if r.2.1 > 0 then r.1 / (r.2.1 : ℚ) else 0

/-- The ms_into_second computation of tick_state_is_gate_open: position
within the current second, fmodf-normalised into [0, 1000). -/
def ms_into_second (epoch_ms current_ms : ℚ) : ℚ :=
  let m := fmodf (current_ms - epoch_ms) 1000
  if m < 0 then m + 1000 else m

/-- tick_state_is_gate_open (tick_state_machine.c). -/
def tick_state_is_gate_open (td : TickState) (current_ms : ℚ) : Bool :=
  if ¬ td.gate.enabled then true
  else if td.gate.recovery_mode then true
  else
    decide (TICK_GATE_START_MS ≤ ms_into_second td.gate.epoch_ms current_ms ∧
      ms_into_second td.gate.epoch_ms current_ms ≤ TICK_GATE_END_MS)

/-- Gate recovery check block of tick_state_machine_run: with gating
enabled, not already recovering, and the FSM idle, enter recovery mode
once GATE_RECOVERY_MS have passed since the last gate-accepted tick. -/
def gate_after_recovery_check (fd : ℚ) (td : TickState) : TickGate :=
  if td.gate.enabled ∧ ¬ td.gate.recovery_mode ∧ td.state = TickFsm.idle then
    let since : ℚ :=
      if td.gate.last_tick_frame_gated > 0 then
        ((td.frame_count : ℚ) - (td.gate.last_tick_frame_gated : ℚ)) * fd
      else 0
    if td.gate.last_tick_frame_gated > 0 ∧ since ≥ GATE_RECOVERY_MS then
      { td.gate with recovery_mode := true }
    else td.gate
  else td.gate

/-- Adaptive noise floor block of tick_state_machine_run: asymmetric
attack/decay on IDLE frames below threshold, clamped to
[NOISE_FLOOR_MIN, NOISE_FLOOR_MAX]. -/
def idle_noise_adapt (td : TickState) : TickState :=
  if td.state = TickFsm.idle ∧ td.current_energy < td.threshold_high then
    let nf :=
      if td.current_energy < td.noise_floor then
        td.noise_floor * td.adapt_alpha_down + td.current_energy * (1 - td.adapt_alpha_down)
      else
        td.noise_floor * td.adapt_alpha_up + td.current_energy * (1 - td.adapt_alpha_up)
    let nf := if nf < NOISE_FLOOR_MIN then NOISE_FLOOR_MIN else nf
    let nf := if nf > NOISE_FLOOR_MAX then NOISE_FLOOR_MAX else nf
    { td with
        noise_floor := nf
        threshold_high := nf * td.threshold_multiplier
        threshold_low := nf * td.threshold_multiplier * TICK_HYSTERESIS }
  else td

/-- tick_state_machine_run (tick_state_machine.c), one frame of the
3-state FSM with warmup overlay, gate recovery, adaptive threshold and
tick/marker classification at pulse completion. -/
def tick_state_machine_run (fd : ℚ) (td0 : TickState) : TickState × TickEmit :=
  let energy := td0.current_energy
  let frame := td0.frame_count
  if ¬ td0.warmup_complete then
    let nf := td0.noise_floor + TICK_WARMUP_ADAPT_RATE * (energy - td0.noise_floor)
    let nf := if nf < NOISE_FLOOR_MIN then NOISE_FLOOR_MIN else nf
    ({ td0 with
        noise_floor := nf
        threshold_high := nf * td0.threshold_multiplier
        threshold_low := nf * td0.threshold_multiplier * TICK_HYSTERESIS
        warmup_complete :=
          if frame ≥ td0.start_frame + TICK_WARMUP_FRAMES then true else td0.warmup_complete },
      TickEmit.no_event)
  else
    let td1 := { td0 with gate := gate_after_recovery_check fd td0 }
    let td := idle_noise_adapt td1
    match td.state with
    | TickFsm.idle =>
      if energy > td.threshold_high then
        let current_ms := (frame : ℚ) * fd
        if ¬ tick_state_is_gate_open td current_ms then (td, TickEmit.no_event)
        else
          ({ td with
              state := TickFsm.in_tick
              tick_start_frame := frame
              tick_peak_energy := energy
              tick_duration_frames := 1
              corr_peak := 0
              corr_sum := 0
              corr_sum_count := 0 }, TickEmit.no_event)
      else (td, TickEmit.no_event)
    | TickFsm.in_tick =>
      let dur_frames := td.tick_duration_frames + 1
      let peak := if energy > td.tick_peak_energy then energy else td.tick_peak_energy
      let td := { td with tick_duration_frames := dur_frames, tick_peak_energy := peak }
      if energy < td.threshold_low then
        let duration_ms := (dur_frames : ℚ) * fd
        let interval_ms : ℚ :=
          if td.last_tick_frame > 0 then
            ((td.tick_start_frame : ℚ) - (td.last_tick_frame : ℚ)) * fd
          else 0
        let timestamp_ms := (frame : ℚ) * fd
        let corr_ratio_q : ℚ :=
          if td.corr_noise_floor > 1 / 1000 then td.corr_peak / td.corr_noise_floor else 0
        let valid_correlation := td.corr_peak > td.corr_noise_floor * CORR_THRESHOLD_MULT
        let is_marker_duration :=
          duration_ms ≥ MARKER_MIN_DURATION_MS ∧ duration_ms ≤ MARKER_MAX_DURATION_MS_CHECK
        let since_last_marker_ms : ℚ :=
          if td.last_marker_frame > 0 then
            ((td.tick_start_frame : ℚ) - (td.last_marker_frame : ℚ)) * fd
          else MARKER_MIN_INTERVAL_MS + 1000
        let valid_marker_interval := since_last_marker_ms ≥ MARKER_MIN_INTERVAL_MS
        if is_marker_duration ∧ valid_marker_interval then
          let leading_edge_ms := timestamp_ms - duration_ms - TICK_FILTER_DELAY_MS
          ({ td with
              markers_detected := td.markers_detected + 1
              flash_frames_remaining := TICK_FLASH_FRAMES * 6
              last_marker_frame := td.tick_start_frame
              state := TickFsm.cooldown
              cooldown_frames := ms_to_frames fd TICK_COOLDOWN_MS },
            TickEmit.marker
              ⟨td.markers_detected + 1, timestamp_ms, leading_edge_ms, duration_ms,
                corr_ratio_q, since_last_marker_ms⟩)
        else if duration_ms ≥ td.min_duration_ms ∧ duration_ms ≤ TICK_MAX_DURATION_MS ∧
            valid_correlation then
          let gate :=
            if td.gate.enabled then
              { td.gate with last_tick_frame_gated := frame, recovery_mode := false }
            else td.gate
          let avg_interval_ms := tick_calculate_avg_interval td timestamp_ms
          ({ td with
              ticks_detected := td.ticks_detected + 1
              flash_frames_remaining := TICK_FLASH_FRAMES
              gate := gate
              tick_timestamps_ms := td.tick_timestamps_ms.set td.tick_history_idx timestamp_ms
              tick_history_idx := (td.tick_history_idx + 1) % TICK_HISTORY_SIZE
              tick_history_count :=
                if td.tick_history_count < TICK_HISTORY_SIZE then td.tick_history_count + 1
                else td.tick_history_count
              last_tick_frame := td.tick_start_frame
              state := TickFsm.cooldown
              cooldown_frames := ms_to_frames fd TICK_COOLDOWN_MS },
            TickEmit.tick
              ⟨td.ticks_detected + 1, timestamp_ms, interval_ms, duration_ms,
                td.tick_peak_energy, avg_interval_ms, td.noise_floor, td.corr_peak,
                corr_ratio_q⟩)
        else
          ({ td with
              ticks_rejected := td.ticks_rejected + 1
              state := TickFsm.cooldown
              cooldown_frames := ms_to_frames fd TICK_COOLDOWN_MS }, TickEmit.no_event)
      else if (dur_frames : ℚ) * fd > MARKER_MAX_DURATION_MS then
        ({ td with
            ticks_rejected := td.ticks_rejected + 1
            state := TickFsm.cooldown
            cooldown_frames := ms_to_frames fd TICK_COOLDOWN_MS }, TickEmit.no_event)
      else (td, TickEmit.no_event)
    | TickFsm.cooldown =>
      let cf := td.cooldown_frames - 1
      ({ td with
          cooldown_frames := cf
          state := if cf ≤ 0 then TickFsm.idle else TickFsm.cooldown }, TickEmit.no_event)

/-- State part of tick_detector_create (tick_detector.c): calloc zeroes
the struct (tick_correlation_init also zeroes the correlation fields),
then the listed fields are set. -/
def tick_detector_create_state : TickState where
  corr_peak := 0
  corr_sum := 0
  corr_sum_count := 0
  corr_noise_floor := 0
  state := TickFsm.idle
  noise_floor := 1 / 100
  threshold_high := (1 / 100) * TICK_THRESHOLD_MULT
  threshold_low := (1 / 100) * TICK_THRESHOLD_MULT * TICK_HYSTERESIS
  current_energy := 0
  tick_start_frame := 0
  tick_peak_energy := 0
  tick_duration_frames := 0
  cooldown_frames := 0
  ticks_detected := 0
  ticks_rejected := 0
  markers_detected := 0
  last_tick_frame := 0
  last_marker_frame := 0
  frame_count := 0
  start_frame := 0
  warmup_complete := false
  tick_timestamps_ms := List.replicate TICK_HISTORY_SIZE 0
  tick_history_idx := 0
  tick_history_count := 0
  flash_frames_remaining := 0
  detection_enabled := true
  threshold_multiplier := TICK_THRESHOLD_MULT
  adapt_alpha_down := 1 - TICK_NOISE_ADAPT_DOWN
  adapt_alpha_up := 1 - TICK_NOISE_ADAPT_UP
  min_duration_ms := TICK_MIN_DURATION_MS
  gate := ⟨0, false, 0, false⟩
  epoch_source := EpochSource.epoch_source_none
  epoch_confidence := 0

/-- tick_detector_set_epoch_with_source (tick_detector.c): fmodf-normalise
the epoch into [0, 1000) and record source and confidence.  The gate
enabled flag is untouched. -/
def tick_detector_set_epoch_with_source (td : TickState) (epoch_ms : ℚ)
    (source : EpochSource) (confidence : ℚ) : TickState :=
  let normalized_epoch := fmodf epoch_ms 1000
  let normalized_epoch :=
    if normalized_epoch < 0 then normalized_epoch + 1000 else normalized_epoch
  { td with
      gate := { td.gate with epoch_ms := normalized_epoch }
      epoch_source := source
      epoch_confidence := confidence }

/-- tick_detector_set_gating_enabled (tick_detector.c). -/
def tick_detector_set_gating_enabled (td : TickState) (enabled : Bool) : TickState :=
  if enabled then
    { td with
        gate := { td.gate with
          enabled := enabled
          last_tick_frame_gated := td.frame_count
          recovery_mode := false } }
  else
    { td with gate := { td.gate with enabled := enabled, recovery_mode := false } }

/-- tick_detector_set_threshold_mult: rejects values outside [1, 5] with
return value false and no mutation. -/
def tick_detector_set_threshold_mult (td : TickState) (value : ℚ) : TickState × Bool :=
  if value < 1 ∨ value > 5 then (td, false)
  else
    ({ td with
        threshold_multiplier := value
        threshold_high := td.noise_floor * value
        threshold_low := td.noise_floor * value * TICK_HYSTERESIS }, true)

/-- tick_detector_set_min_duration_ms: rejects values outside [1, 10] with
return value false and no mutation. -/
def tick_detector_set_min_duration_ms (td : TickState) (value : ℚ) : TickState × Bool :=
  if value < 1 ∨ value > 10 then (td, false)
  else ({ td with min_duration_ms := value }, true)

end Tick

/-! ## BCD frequency detector accumulator
(src/detection/bcd/bcd_freq_state_machine.c, bcd_internal.h)

WINDOW_FRAMES derives from BCD_FREQ_WINDOW_MS and FRAME_DURATION_MS via
constants in the absent bcd_freq_detector.h, so the window length W is a
parameter. -/

namespace BcdFreq

inductive BcdFreqFsm
  | idle
  | in_pulse
  | cooldown
deriving DecidableEq

/-- struct bcd_freq_detector without its resource fields (fft, i/q
buffers, FILE, callback). -/
structure BcdFreqState where
  energy_history : List ℚ
  history_idx : ℕ
  history_count : ℕ
  accumulated_energy : ℚ
  baseline_energy : ℚ
  state : BcdFreqFsm
  current_energy : ℚ
  threshold : ℚ
  pulse_start_frame : ℕ
  pulse_peak_energy : ℚ
  pulse_duration_frames : ℤ
  cooldown_frames : ℤ
  consecutive_low_frames : ℤ
  pulses_detected : ℤ
  pulses_rejected : ℤ
  last_pulse_frame : ℕ
  frame_count : ℕ
  start_frame : ℕ
  warmup_complete : Bool
  detection_enabled : Bool
deriving DecidableEq

/-- bcd_freq_update_accumulator (bcd_freq_state_machine.c): the same
sliding-window sum as the marker detector, over WINDOW_FRAMES = W. -/
def bcd_freq_update_accumulator (W : ℕ) (fd : BcdFreqState) (energy : ℚ) : BcdFreqState :=
  let acc0 :=
    if fd.history_count ≥ W then
      fd.accumulated_energy - fd.energy_history.getD fd.history_idx 0
    else fd.accumulated_energy
  { fd with
    energy_history := fd.energy_history.set fd.history_idx energy
    accumulated_energy := acc0 + energy
    history_idx := (fd.history_idx + 1) % W
    history_count := if fd.history_count < W then fd.history_count + 1 else fd.history_count }

end BcdFreq

/-! ## Circular-buffer accumulator theory (claim C5)

Both update_accumulator (marker) and bcd_freq_update_accumulator act on
the quadruple (energy_history, history_idx, history_count,
accumulated_energy) by the same code; AccQuad isolates that quadruple. -/

structure AccQuad where
  hist : List ℚ
  idx : ℕ
  count : ℕ
  accum : ℚ
deriving DecidableEq

def accStep (W : ℕ) (s : AccQuad) (e : ℚ) : AccQuad :=
  let acc0 := if s.count ≥ W then s.accum - s.hist.getD s.idx 0 else s.accum
  { hist := s.hist.set s.idx e
    idx := (s.idx + 1) % W
    count := if s.count < W then s.count + 1 else s.count
    accum := acc0 + e }

def accInsertAll (W : ℕ) (s : AccQuad) (xs : List ℚ) : AccQuad :=
  xs.foldl (accStep W) s

def accInit (W : ℕ) : AccQuad := ⟨List.replicate W 0, 0, 0, 0⟩

/-- The quadruple a marker detector state carries. -/
def Marker.quadOf (md : Marker.MarkerState) : AccQuad :=
  ⟨md.energy_history, md.history_idx, md.history_count, md.accumulated_energy⟩

/-- The quadruple a BCD frequency detector state carries. -/
def BcdFreq.quadOf (fd : BcdFreq.BcdFreqState) : AccQuad :=
  ⟨fd.energy_history, fd.history_idx, fd.history_count, fd.accumulated_energy⟩


/-- The last n elements of a list. -/
def lastN (n : ℕ) (xs : List ℚ) : List ℚ := xs.drop (xs.length - n)

/-- The invariant the accumulator maintains after inserting xs from the
zeroed initial quadruple. -/
def AccInv (W : ℕ) (xs : List ℚ) (s : AccQuad) : Prop :=
  s.hist.length = W ∧
  s.idx = xs.length % W ∧
  s.count = min xs.length W ∧
  (∀ i, i < min xs.length W →
    s.hist.getD ((xs.length - 1 - i) % W) 0 = xs.getD (xs.length - 1 - i) 0) ∧
  s.accum = (lastN (min xs.length W) xs).sum

/-! ## Concrete states for witnesses and counterexamples -/

/-- A tick detector mid-pulse: warmup done, IN_TICK for 4 frames with a
strong correlation, about to fall below threshold_low at frame 100
(frame duration 1 ms). -/
def c2_td0 : Tick.TickState :=
  { Tick.tick_detector_create_state with
      warmup_complete := true
      state := Tick.TickFsm.in_tick
      frame_count := 100
      tick_start_frame := 95
      tick_duration_frames := 4
      tick_peak_energy := 1
      corr_peak := 10
      corr_noise_floor := 1 }

/-- An idle gated detector at frame 2000 (frame duration 1 ms): epoch 0,
gate window open, energy above threshold. -/
def c3_td0 : Tick.TickState :=
  { Tick.tick_detector_create_state with
      warmup_complete := true
      current_energy := 10
      frame_count := 2000
      gate := ⟨0, true, 1999, false⟩ }

/-- An idle gated detector 6000 ms past its last gate-accepted tick. -/
def c3_td1 : Tick.TickState :=
  { Tick.tick_detector_create_state with
      warmup_complete := true
      frame_count := 7000
      gate := ⟨0, true, 1000, false⟩ }

/-- A gated detector already in recovery mode. -/
def c3_td2 : Tick.TickState :=
  { Tick.tick_detector_create_state with
      gate := ⟨0, true, 0, true⟩ }

/-- A warmup-phase tick detector hit by one frame of energy 100. -/
def c4_tick_warm_state : Tick.TickState :=
  { Tick.tick_detector_create_state with current_energy := 100 }

/-- A warmed-up idle tick detector one frame after creation. -/
def c4_tick_idle_state : Tick.TickState :=
  { Tick.tick_detector_create_state with warmup_complete := true }

/-- A warmed-up idle marker detector past MARKER_MIN_STARTUP_MS
(window 1 frame, frame duration 5 ms, frame 2000). -/
def c4_marker_idle_state : Marker.MarkerState :=
  { Marker.marker_detector_create_state 1 with
      warmup_complete := true
      frame_count := 2000 }

/-- The marker detector (window 1 frame, frame duration 5 ms) fed n
all-zero frames from creation. -/
def c4_marker_zero_run : ℕ → Marker.MarkerState
  | 0 => Marker.marker_detector_create_state 1
  | n + 1 => Marker.marker_process_frame 1 5 (c4_marker_zero_run n) 0

/-- A zeroed BCD frequency-detector state over a 3-frame window. -/
def c5_freq0 : BcdFreq.BcdFreqState :=
  ⟨List.replicate 3 0, 0, 0, 0, 0, BcdFreq.BcdFreqFsm.idle, 0, 0, 0, 0, 0,
    0, 0, 0, 0, 0, 0, 0, false, true⟩

/-- An open all-zero correlator window: no events, classified NONE. -/
def c10_w0 : BcdCorrelator :=
  ⟨true, 0, 0, 0, 0, 0, 0, 0, 0, 0, 0, 0, 0, 0, 0, 0, 0, BcdCorrFsmState.acquiring⟩

/-- An open window with two TIME events spanning 200 ms at second 5. -/
def c10_w1 : BcdCorrelator :=
  ⟨true, 5, 0, 0, 1, 0, 2, 100, 300, 0, 0, 0, 0, 0, 0, 0, 0, BcdCorrFsmState.acquiring⟩

/-- The symbol event close_window emits for c10_w1. -/
def c10_ev1 : BcdSymbolEvent :=
  ⟨BcdCorrSymbol.sym_zero, 500, 200, 6 / 10, BcdSourceTag.src_time⟩

/-! ## Theorems

Everything below is proved about the definitions above: helper lemmas
first, then the ten claim theorems with their witnesses and
counterexamples. -/

theorem ratTrunc_nonneg_le {q : ℚ} (h : 0 ≤ q) :
    (ratTrunc q : ℚ) ≤ q ∧ q < (ratTrunc q : ℚ) + 1 := by
  unfold ratTrunc
  rw [if_pos h]
  exact ⟨Int.floor_le q, Int.lt_floor_add_one q⟩

theorem ratTrunc_neg_le {q : ℚ} (h : ¬ 0 ≤ q) :
    q ≤ (ratTrunc q : ℚ) ∧ (ratTrunc q : ℚ) - 1 < q := by
  unfold ratTrunc
  rw [if_neg h]
  constructor
  · exact Int.le_ceil q
  · have := Int.ceil_lt_add_one q
    linarith

/-- fmodf with positive modulus lands in (-y, y), on the side of the sign
of the dividend, and differs from the dividend by an integer multiple of
the modulus. -/
theorem fmodf_bounds {x y : ℚ} (hy : 0 < y) :
    (-y < fmodf x y ∧ fmodf x y < y) ∧
    (0 ≤ x → 0 ≤ fmodf x y) ∧ (x < 0 → fmodf x y ≤ 0) ∧
    (∃ k : ℤ, x - fmodf x y = y * k) := by
  unfold fmodf
  have hxy : x / y * y = x := div_mul_cancel₀ x hy.ne'
  by_cases h : 0 ≤ x / y
  · obtain ⟨h1, h2⟩ := ratTrunc_nonneg_le h
    have hl : (ratTrunc (x / y) : ℚ) * y ≤ x := by
      have := mul_le_mul_of_nonneg_right h1 hy.le
      rwa [hxy] at this
    have hr : x < ((ratTrunc (x / y) : ℚ) + 1) * y := by
      have := mul_lt_mul_of_pos_right h2 hy
      rwa [hxy] at this
    have hx : 0 ≤ x := by
      by_contra hx
      push_neg at hx
      have : x / y < 0 := div_neg_of_neg_of_pos hx hy
      linarith
    refine ⟨⟨?_, ?_⟩, fun _ => ?_, fun hx0 => absurd hx (not_le.mpr hx0), ⟨ratTrunc (x / y), by ring⟩⟩
    · nlinarith
    · nlinarith
    · nlinarith
  · obtain ⟨h1, h2⟩ := ratTrunc_neg_le h
    have hl : x ≤ (ratTrunc (x / y) : ℚ) * y := by
      have := mul_le_mul_of_nonneg_right h1 hy.le
      rwa [hxy] at this
    have hr : ((ratTrunc (x / y) : ℚ) - 1) * y < x := by
      have := mul_lt_mul_of_pos_right h2 hy
      rwa [hxy] at this
    have hx : x < 0 := by
      by_contra hx
      push_neg at hx
      exact h (div_nonneg hx hy.le)
    refine ⟨⟨?_, ?_⟩, fun hx0 => absurd hx (not_lt.mpr hx0), fun _ => ?_, ⟨ratTrunc (x / y), by ring⟩⟩
    · nlinarith
    · nlinarith
    · nlinarith

theorem marker_quadOf_step (W : ℕ) (md : Marker.MarkerState) (e : ℚ) :
    Marker.quadOf (Marker.update_accumulator W md e) = accStep W (Marker.quadOf md) e := rfl

theorem bcdfreq_quadOf_step (W : ℕ) (fd : BcdFreq.BcdFreqState) (e : ℚ) :
    BcdFreq.quadOf (BcdFreq.bcd_freq_update_accumulator W fd e)
      = accStep W (BcdFreq.quadOf fd) e := rfl

theorem marker_quadOf_foldl (W : ℕ) (md : Marker.MarkerState) (xs : List ℚ) :
    Marker.quadOf (xs.foldl (Marker.update_accumulator W) md)
      = accInsertAll W (Marker.quadOf md) xs := by
  induction xs generalizing md with
  | nil => rfl
  | cons x xs ih =>
    simp only [List.foldl_cons, accInsertAll] at *
    rw [ih, marker_quadOf_step]

theorem bcdfreq_quadOf_foldl (W : ℕ) (fd : BcdFreq.BcdFreqState) (xs : List ℚ) :
    BcdFreq.quadOf (xs.foldl (BcdFreq.bcd_freq_update_accumulator W) fd)
      = accInsertAll W (BcdFreq.quadOf fd) xs := by
  induction xs generalizing fd with
  | nil => rfl
  | cons x xs ih =>
    simp only [List.foldl_cons, accInsertAll] at *
    rw [ih, bcdfreq_quadOf_step]


theorem accInv_init (W : ℕ) : AccInv W [] (accInit W) := by
  refine ⟨List.length_replicate _ _, ?_, ?_, ?_, ?_⟩
  · simp [accInit]
  · simp [accInit]
  · intro i hi
    simp at hi
  · simp [accInit, lastN]

theorem mod_distinct {W n i : ℕ} (hW : 0 < W) (hi1 : 1 ≤ i) (hiW : i < W) (hin : i ≤ n) :
    (n - i) % W ≠ n % W := by
  intro h
  set a := n - i with ha
  have hna : n = a + i := by omega
  rw [hna] at h
  have hx : a % W < W := Nat.mod_lt _ hW
  have key : (a + i) % W = (a % W + i) % W := by
    conv_lhs => rw [Nat.add_mod]
    rw [Nat.mod_eq_of_lt hiW]
  rw [key] at h
  by_cases hlt : a % W + i < W
  · rw [Nat.mod_eq_of_lt hlt] at h
    omega
  · have hge : W ≤ a % W + i := by omega
    have h2 : a % W + i - W < W := by omega
    rw [Nat.mod_eq_sub_mod hge, Nat.mod_eq_of_lt h2] at h
    omega

theorem list_getD_set_self (l : List ℚ) (i : ℕ) (a : ℚ) (h : i < l.length) :
    (l.set i a).getD i 0 = a := by
  rw [List.getD_eq_getElem?_getD, List.getElem?_set_eq_of_lt a h]
  rfl

theorem list_getD_set_ne (l : List ℚ) {i j : ℕ} (a : ℚ) (h : i ≠ j) :
    (l.set i a).getD j 0 = l.getD j 0 := by
  rw [List.getD_eq_getElem?_getD, List.getElem?_set_ne h, List.getD_eq_getElem?_getD]

theorem list_getD_append_last (xs : List ℚ) (e : ℚ) : (xs ++ [e]).getD xs.length 0 = e := by
  rw [List.getD_eq_getElem?_getD, List.getElem?_append_right (le_refl _)]
  simp

theorem list_getD_append_lt (xs : List ℚ) (e : ℚ) {k : ℕ} (h : k < xs.length) :
    (xs ++ [e]).getD k 0 = xs.getD k 0 := by
  rw [List.getD_eq_getElem?_getD, List.getElem?_append_left h, List.getD_eq_getElem?_getD]

theorem list_sum_drop_cons (xs : List ℚ) {k : ℕ} (h : k < xs.length) :
    (xs.drop k).sum = xs.getD k 0 + (xs.drop (k + 1)).sum := by
  rw [List.drop_eq_getElem_cons h, List.sum_cons,
    List.getD_eq_getElem?_getD, List.getElem?_eq_getElem h, Option.getD_some]

theorem list_drop_append_small (xs : List ℚ) (e : ℚ) {k : ℕ} (h : k ≤ xs.length) :
    (xs ++ [e]).drop k = xs.drop k ++ [e] := by
  rw [List.drop_append_eq_append_drop]
  have h0 : k - xs.length = 0 := by omega
  simp [h0]

theorem succ_mod_step (n W : ℕ) : (n % W + 1) % W = (n + 1) % W := by
  conv_rhs => rw [Nat.add_mod]
  conv_lhs => rw [Nat.add_mod]
  rw [Nat.mod_mod_of_dvd n (dvd_refl W)]

theorem accInv_step (W : ℕ) (hW : 0 < W) (xs : List ℚ) (e : ℚ) (s : AccQuad)
    (h : AccInv W xs s) : AccInv W (xs ++ [e]) (accStep W s e) := by
  obtain ⟨hlen, hidx, hcount, hslots, haccum⟩ := h
  set n := xs.length with hn
  have hlen1 : (xs ++ [e]).length = n + 1 := by simp
  refine ⟨?_, ?_, ?_, ?_, ?_⟩
  · simpa [accStep] using hlen
  · show (s.idx + 1) % W = (xs ++ [e]).length % W
    rw [hlen1, hidx, succ_mod_step]
  · show (if s.count < W then s.count + 1 else s.count) = min (xs ++ [e]).length W
    rw [hlen1, hcount]
    rcases Nat.lt_or_ge (min n W) W with hlt | hge
    · rw [if_pos hlt]
      omega
    · rw [if_neg (not_lt.mpr hge)]
      omega
  · intro i hi
    rw [hlen1] at hi ⊢
    have hi2 : i < min (n + 1) W := hi
    have hidx_lt : s.idx < W := by
      rw [hidx]
      exact Nat.mod_lt _ hW
    show (s.hist.set s.idx e).getD ((n + 1 - 1 - i) % W) 0 = (xs ++ [e]).getD (n + 1 - 1 - i) 0
    have hsub : n + 1 - 1 - i = n - i := by omega
    rw [hsub]
    rcases Nat.eq_zero_or_pos i with hi0 | hi1
    · subst hi0
      have hslot : (n - 0) % W = s.idx := by
        rw [hidx]
        simp
      rw [Nat.sub_zero] at hslot ⊢
      rw [hslot, list_getD_set_self s.hist s.idx e (hlen ▸ hidx_lt)]
      exact (list_getD_append_last xs e).symm
    · have hiW : i < W := by omega
      have hin : i ≤ n := by omega
      have hne : (n - i) % W ≠ n % W := mod_distinct hW hi1 hiW hin
      have hne2 : s.idx ≠ (n - i) % W := by
        rw [hidx]
        exact fun hc => hne hc.symm
      rw [list_getD_set_ne s.hist e hne2]
      have hlt : n - i < n := by omega
      rw [list_getD_append_lt xs e hlt]
      have := hslots (i - 1) (by omega)
      have hsub2 : n - 1 - (i - 1) = n - i := by omega
      rw [hsub2] at this
      exact this
  · show (if s.count ≥ W then s.accum - s.hist.getD s.idx 0 else s.accum) + e
      = (lastN (min (xs ++ [e]).length W) (xs ++ [e])).sum
    rw [hlen1]
    by_cases hc : s.count ≥ W
    · rw [if_pos hc]
      have hnW : W ≤ n := by omega
      have hminW : min n W = W := by omega
      have hmin1 : min (n + 1) W = W := by omega
      have hevict : s.hist.getD s.idx 0 = xs.getD (n - W) 0 := by
        have := hslots (W - 1) (by omega)
        have hsub3 : n - 1 - (W - 1) = n - W := by omega
        rw [hsub3] at this
        have hidx2 : s.idx = (n - W) % W := by
          rw [hidx, Nat.mod_eq_sub_mod hnW]
        rw [hidx2]
        exact this
      have hacc : s.accum = (xs.drop (n - W)).sum := by
        rw [haccum, hminW]
        unfold lastN
        rw [← hn]
      have hlt : n - W < n := by omega
      have hdropsum := list_sum_drop_cons xs hlt
      rw [hmin1]
      unfold lastN
      rw [hlen1]
      have hsub4 : n + 1 - W = (n - W) + 1 := by omega
      rw [hsub4, list_drop_append_small xs e (by omega), List.sum_append]
      rw [hevict, hacc, hdropsum]
      simp
    · rw [if_neg hc]
      have hnW : n < W := by omega
      have hminn : min n W = n := by omega
      have hmin1 : min (n + 1) W = n + 1 := by omega
      have hacc : s.accum = xs.sum := by
        rw [haccum, hminn]
        unfold lastN
        rw [← hn]
        simp
      rw [hmin1]
      unfold lastN
      rw [hlen1]
      simp [hacc]

theorem accInsertAll_append (W : ℕ) (s : AccQuad) (xs : List ℚ) (e : ℚ) :
    accInsertAll W s (xs ++ [e]) = accStep W (accInsertAll W s xs) e := by
  simp [accInsertAll, List.foldl_append]

theorem accInv_all (W : ℕ) (hW : 0 < W) (xs : List ℚ) :
    AccInv W xs (accInsertAll W (accInit W) xs) := by
  induction xs using List.reverseRecOn with
  | nil => exact accInv_init W
  | append_singleton l a ih =>
    rw [accInsertAll_append]
    exact accInv_step W hW l a _ ih

/-- Accumulator value after any insertion sequence from the zeroed start:
the exact sum of the last min(n, W) energies. -/
theorem accInsertAll_accum (W : ℕ) (hW : 0 < W) (xs : List ℚ) :
    (accInsertAll W (accInit W) xs).accum = (lastN (min xs.length W) xs).sum :=
  (accInv_all W hW xs).2.2.2.2

/-- Round trip: W zeros then W ones leave the accumulator at W. -/
theorem accInsertAll_roundtrip (W : ℕ) (hW : 0 < W) :
    (accInsertAll W (accInit W) (List.replicate W 0 ++ List.replicate W 1)).accum = W := by
  rw [accInsertAll_accum W hW]
  have hlen : (List.replicate W (0 : ℚ) ++ List.replicate W 1).length = W + W := by
    simp
  rw [hlen]
  have hmin : min (W + W) W = W := by omega
  rw [hmin]
  unfold lastN
  rw [hlen]
  have hsub : W + W - W = W := by omega
  rw [hsub, List.drop_append_eq_append_drop]
  simp [List.sum_replicate]

/-! ## Tick-detector helper lemmas -/

namespace Tick

theorem idle_noise_adapt_min_duration (s : TickState) :
    (idle_noise_adapt s).min_duration_ms = s.min_duration_ms := by
  unfold idle_noise_adapt
  split <;> rfl

theorem idle_noise_adapt_corr_peak (s : TickState) :
    (idle_noise_adapt s).corr_peak = s.corr_peak := by
  unfold idle_noise_adapt
  split <;> rfl

theorem idle_noise_adapt_corr_noise_floor (s : TickState) :
    (idle_noise_adapt s).corr_noise_floor = s.corr_noise_floor := by
  unfold idle_noise_adapt
  split <;> rfl

theorem idle_noise_adapt_tick_duration_frames (s : TickState) :
    (idle_noise_adapt s).tick_duration_frames = s.tick_duration_frames := by
  unfold idle_noise_adapt
  split <;> rfl

theorem idle_noise_adapt_state (s : TickState) :
    (idle_noise_adapt s).state = s.state := by
  unfold idle_noise_adapt
  split <;> rfl

theorem idle_noise_adapt_gate (s : TickState) :
    (idle_noise_adapt s).gate = s.gate := by
  unfold idle_noise_adapt
  split <;> rfl

theorem idle_noise_adapt_frame_count (s : TickState) :
    (idle_noise_adapt s).frame_count = s.frame_count := by
  unfold idle_noise_adapt
  split <;> rfl

theorem gate_after_recovery_check_enabled (fd : ℚ) (td : TickState) :
    (gate_after_recovery_check fd td).enabled = td.gate.enabled := by
  simp only [gate_after_recovery_check]
  repeat' split
  all_goals rfl

theorem gate_after_recovery_check_epoch (fd : ℚ) (td : TickState) :
    (gate_after_recovery_check fd td).epoch_ms = td.gate.epoch_ms := by
  simp only [gate_after_recovery_check]
  repeat' split
  all_goals rfl

theorem idle_noise_adapt_noise_floor_min (s : TickState)
    (h : NOISE_FLOOR_MIN ≤ s.noise_floor) :
    NOISE_FLOOR_MIN ≤ (idle_noise_adapt s).noise_floor := by
  unfold idle_noise_adapt
  simp only [NOISE_FLOOR_MIN, NOISE_FLOOR_MAX] at h ⊢
  split
  · dsimp only
    split_ifs
    all_goals linarith
  · exact h

theorem idle_noise_adapt_noise_floor_max (s : TickState)
    (hst : s.state = TickFsm.idle) (he : s.current_energy < s.threshold_high) :
    (idle_noise_adapt s).noise_floor ≤ NOISE_FLOOR_MAX := by
  unfold idle_noise_adapt
  simp only [NOISE_FLOOR_MIN, NOISE_FLOOR_MAX]
  rw [if_pos ⟨hst, he⟩]
  dsimp only
  split_ifs
  all_goals linarith

theorem run_gate_of_idle (fd : ℚ) (td : TickState)
    (hwarm : td.warmup_complete = true) (hidle : td.state = TickFsm.idle) :
    (tick_state_machine_run fd td).1.gate = gate_after_recovery_check fd td := by
  simp only [tick_state_machine_run, hwarm, eq_self_iff_true, not_true, if_false]
  repeat' split
  all_goals try (exact idle_noise_adapt_gate _)
  all_goals simp only [idle_noise_adapt_state, hidle] at *
  all_goals contradiction

theorem tick_run_floor_lower (fd : ℚ) (td : TickState)
    (h : NOISE_FLOOR_MIN ≤ td.noise_floor) :
    NOISE_FLOOR_MIN ≤ (tick_state_machine_run fd td).1.noise_floor := by
  by_cases hw : td.warmup_complete = true
  · simp only [tick_state_machine_run, hw, eq_self_iff_true, not_true, if_false]
    repeat' split
    all_goals dsimp only
    all_goals exact idle_noise_adapt_noise_floor_min _ h
  · simp only [tick_state_machine_run]
    rw [if_pos hw]
    dsimp only
    simp only [NOISE_FLOOR_MIN] at h ⊢
    split_ifs
    all_goals linarith

theorem tick_run_floor_upper (fd : ℚ) (td : TickState)
    (hwarm : td.warmup_complete = true)
    (hst : td.state = TickFsm.idle) (he : td.current_energy < td.threshold_high) :
    (tick_state_machine_run fd td).1.noise_floor ≤ NOISE_FLOOR_MAX := by
  simp only [tick_state_machine_run, hwarm, eq_self_iff_true, not_true, if_false]
  repeat' split
  all_goals exact idle_noise_adapt_noise_floor_max _ hst he

theorem tick_gate_window_of_transition (fd : ℚ) (td : TickState)
    (hidle : td.state = TickFsm.idle)
    (htrans : (tick_state_machine_run fd td).1.state = TickFsm.in_tick)
    (hen : td.gate.enabled = true)
    (hrec : (gate_after_recovery_check fd td).recovery_mode = false) :
    TICK_GATE_START_MS ≤ ms_into_second td.gate.epoch_ms ((td.frame_count : ℚ) * fd) ∧
      ms_into_second td.gate.epoch_ms ((td.frame_count : ℚ) * fd) ≤ TICK_GATE_END_MS := by
  simp only [tick_state_machine_run] at htrans
  repeat' split at htrans
  all_goals try (simp only [idle_noise_adapt_state] at htrans)
  all_goals try (rw [hidle] at htrans)
  all_goals try (simp at htrans)
  simp only [not_not, tick_state_is_gate_open, idle_noise_adapt_gate,
    gate_after_recovery_check_enabled, gate_after_recovery_check_epoch,
    hen, hrec, not_true, if_false, decide_eq_true_eq, Bool.false_eq_true] at *
  assumption

theorem tick_recovery_entry (fd : ℚ) (td : TickState)
    (hwarm : td.warmup_complete = true)
    (hidle : td.state = TickFsm.idle)
    (hen : td.gate.enabled = true)
    (hrec : td.gate.recovery_mode = false)
    (hlast : td.gate.last_tick_frame_gated > 0)
    (hsince : ((td.frame_count : ℚ) - (td.gate.last_tick_frame_gated : ℚ)) * fd ≥
      GATE_RECOVERY_MS) :
    (tick_state_machine_run fd td).1.gate.recovery_mode = true := by
  have hg : gate_after_recovery_check fd td = { td.gate with recovery_mode := true } := by
    unfold gate_after_recovery_check
    rw [if_pos ⟨hen, by simp [hrec], hidle⟩]
    dsimp only
    rw [if_pos hlast, if_pos ⟨hlast, hsince⟩]
  rw [run_gate_of_idle fd td hwarm hidle, hg]

end Tick

/-! ## Marker-detector helper lemmas -/

namespace Marker

theorem update_accumulator_warmup (W : ℕ) (md : MarkerState) (e : ℚ) :
    (update_accumulator W md e).warmup_complete = md.warmup_complete := rfl

theorem update_accumulator_frame_count (W : ℕ) (md : MarkerState) (e : ℚ) :
    (update_accumulator W md e).frame_count = md.frame_count := rfl

theorem update_accumulator_state (W : ℕ) (md : MarkerState) (e : ℚ) :
    (update_accumulator W md e).state = md.state := rfl

theorem update_accumulator_baseline (W : ℕ) (md : MarkerState) (e : ℚ) :
    (update_accumulator W md e).baseline_energy = md.baseline_energy := rfl

theorem marker_run_baseline_lower (W : ℕ) (fd : ℚ) (md : MarkerState)
    (hwarm : md.warmup_complete = true)
    (hstart : ¬ ((md.frame_count : ℚ) * fd < MARKER_MIN_STARTUP_MS))
    (hidle : md.state = MarkerFsm.idle) :
    1 / 1000 ≤ (marker_state_machine_run W fd md).1.baseline_energy := by
  simp only [marker_state_machine_run, update_accumulator_warmup, update_accumulator_frame_count,
    update_accumulator_state, hwarm, eq_self_iff_true, not_true, if_false, hidle, if_true]
  rw [if_neg hstart]
  repeat' split
  all_goals first
    | exact le_refl _
    | linarith
    | contradiction

end Marker

/-! ## Classifier and interpolation helper lemmas -/

/-- A duration classified P_MARKER forces a valid P position. -/
theorem classify_marker_valid (d : ℚ) (s : ℤ)
    (h : bcd_symbol_classify_duration d s = BcdCorrSymbol.sym_marker) :
    bcd_symbol_is_valid_p_position s = true := by
  unfold bcd_symbol_classify_duration at h
  split_ifs at h <;> first | assumption | simp at h

/-- Exact value of the parabolic peak of the C6 triplet. -/
theorem c6_triplet_eval : tone_parabolic_peak c6_triplet_mag 2 5 = 7 / 4 := by
  norm_num [tone_parabolic_peak, c6_triplet_mag]
  exact le_trans (by norm_num) (le_abs_self _)

/-- Closed form of the marker baseline on the all-zero stream: warmup never
completes in the first 200 frames and each frame decays the baseline by the
factor 1 - MARKER_WARMUP_ADAPT_RATE = 49/50 with no lower clamp. -/
theorem c4_marker_zero_invariant : ∀ n, n < 200 →
    (c4_marker_zero_run n).baseline_energy = (1 / 100) * (49 / 50) ^ n ∧
    (c4_marker_zero_run n).warmup_complete = false ∧
    (c4_marker_zero_run n).frame_count = n ∧
    (c4_marker_zero_run n).start_frame = 0 ∧
    (c4_marker_zero_run n).accumulated_energy = 0 ∧
    (c4_marker_zero_run n).energy_history = [0] ∧
    (c4_marker_zero_run n).history_idx = 0 ∧
    (c4_marker_zero_run n).history_count = min n 1 := by
  intro n
  induction n with
  | zero =>
    intro _
    refine ⟨?_, rfl, rfl, rfl, rfl, rfl, rfl, rfl⟩
    simp [c4_marker_zero_run, Marker.marker_detector_create_state]
  | succ n ih =>
    intro hn
    obtain ⟨hb, hw, hf, hs, ha, hh, hi, hc⟩ := ih (by omega)
    have hlt : ¬ ((c4_marker_zero_run n).frame_count ≥
        (c4_marker_zero_run n).start_frame + Marker.MARKER_WARMUP_FRAMES) := by
      rw [hf, hs]
      simp only [Marker.MARKER_WARMUP_FRAMES]
      omega
    simp only [c4_marker_zero_run, Marker.marker_process_frame, Marker.marker_state_machine_run,
      Marker.update_accumulator, hb, hw, hf, hs, ha, hh, hi, hc]
    norm_num
    refine ⟨?_, ?_, ?_⟩
    · simp only [Marker.MARKER_WARMUP_ADAPT_RATE, pow_succ]
      ring
    · simp only [Marker.MARKER_WARMUP_FRAMES]
      omega
    · rcases Nat.eq_zero_or_pos n with h0 | h0
      · subst h0
        norm_num
      · rw [if_neg (by omega)]
        omega

/-! ## Claim theorems -/

/-- Claim C1: for every estimated pulse duration d (ms) and second index s
in 0..59, bcd_symbol_classify_duration returns NONE for d < 100, ZERO for
100 <= d <= 350, ONE for 350 < d <= 650, and for d > 650 (including
d > 900) returns P_MARKER exactly when s is a valid P position
(0, 9, 19, 29, 39, 49, 59) and ONE otherwise; consequently every symbol
event bcd_window_close emits with symbol P_MARKER has its window second in
that position set. -/
theorem c1_classifier_bands (d : ℚ) (s : ℤ) (h0 : 0 ≤ s) (h59 : s ≤ 59) :
    (d < 100 → bcd_symbol_classify_duration d s = BcdCorrSymbol.sym_none) ∧
    (100 ≤ d → d ≤ 350 → bcd_symbol_classify_duration d s = BcdCorrSymbol.sym_zero) ∧
    (350 < d → d ≤ 650 → bcd_symbol_classify_duration d s = BcdCorrSymbol.sym_one) ∧
    (650 < d → bcd_symbol_classify_duration d s =
      (if bcd_symbol_is_valid_p_position s then BcdCorrSymbol.sym_marker
       else BcdCorrSymbol.sym_one)) ∧
    (∀ (d2 : ℚ) (s2 : ℤ), bcd_symbol_classify_duration d2 s2 = BcdCorrSymbol.sym_marker →
      bcd_symbol_is_valid_p_position s2 = true) ∧
    (bcd_symbol_is_valid_p_position s = true ↔
      (s = 0 ∨ s = 9 ∨ s = 19 ∨ s = 29 ∨ s = 39 ∨ s = 49 ∨ s = 59)) ∧
    (∀ (w : BcdCorrelator) (e : BcdSymbolEvent), (bcd_window_close w).2 = Option.some e →
      e.symbol = BcdCorrSymbol.sym_marker → bcd_symbol_is_valid_p_position w.current_second = true) := by
  refine ⟨?_, ?_, ?_, ?_, fun d2 s2 h => classify_marker_valid d2 s2 h, ?_, ?_⟩
  · intro h1
    simp only [bcd_symbol_classify_duration, BCD_SYMBOL_ZERO_MAX_MS,
      BCD_SYMBOL_ONE_MAX_MS, BCD_SYMBOL_MARKER_MAX_MS]
    split_ifs <;> first | rfl | linarith
  · intro h1 h2
    simp only [bcd_symbol_classify_duration, BCD_SYMBOL_ZERO_MAX_MS,
      BCD_SYMBOL_ONE_MAX_MS, BCD_SYMBOL_MARKER_MAX_MS]
    split_ifs <;> first | rfl | linarith
  · intro h1 h2
    simp only [bcd_symbol_classify_duration, BCD_SYMBOL_ZERO_MAX_MS,
      BCD_SYMBOL_ONE_MAX_MS, BCD_SYMBOL_MARKER_MAX_MS]
    split_ifs <;> first | rfl | linarith
  · intro h1
    simp only [bcd_symbol_classify_duration, BCD_SYMBOL_ZERO_MAX_MS,
      BCD_SYMBOL_ONE_MAX_MS, BCD_SYMBOL_MARKER_MAX_MS]
    split_ifs <;> first | rfl | linarith
  · simp [bcd_symbol_is_valid_p_position, VALID_P_POSITIONS]
  · intro w e h hm
    simp only [bcd_window_close] at h
    split at h
    · simp at h
    · dsimp only at h
      injection h with he
      rw [← he] at hm
      dsimp only at hm
      split at hm
      · exact classify_marker_valid _ _ hm
      · split at hm
        · exact classify_marker_valid _ _ hm
        · exact absurd hm (by simp)

/-- Claim C1 witness: a 750 ms pulse at second 9 classifies P_MARKER and
the same pulse at second 5 downgrades to ONE. -/
theorem c1_classifier_bands_witness :
    (0 : ℤ) ≤ 9 ∧ (9 : ℤ) ≤ 59 ∧
    bcd_symbol_classify_duration 750 9 = BcdCorrSymbol.sym_marker ∧
    bcd_symbol_classify_duration 750 5 = BcdCorrSymbol.sym_one := by
  have h9 := (c1_classifier_bands 750 9 (by decide) (by decide)).2.2.2.1 (by norm_num)
  have h5 := (c1_classifier_bands 750 5 (by decide) (by decide)).2.2.2.1 (by norm_num)
  refine ⟨by decide, by decide, ?_, ?_⟩
  · rw [h9]
    decide
  · rw [h5]
    decide

/-- Claim C2: every tick event the state machine emits satisfies
min_duration_ms <= duration_ms <= TICK_MAX_DURATION_MS and
corr_peak > CORR_THRESHOLD_MULT times the correlation noise floor, the
values being those the detector held entering the frame; and no frame
emits a minute-marker event alongside a tick event. -/
theorem c2_tick_event_guard (fd : ℚ) (td : Tick.TickState) (ev : Tick.TickEvent)
    (h : (Tick.tick_state_machine_run fd td).2 = Tick.TickEmit.tick ev) :
    (ev.duration_ms ≥ td.min_duration_ms ∧ ev.duration_ms ≤ Tick.TICK_MAX_DURATION_MS ∧
      ev.corr_peak > td.corr_noise_floor * Tick.CORR_THRESHOLD_MULT) ∧
    (∀ mev : Tick.TickMarkerEvent,
      (Tick.tick_state_machine_run fd td).2 ≠ Tick.TickEmit.marker mev) := by
  refine ⟨?_, fun mev hm => ?_⟩
  · simp only [Tick.tick_state_machine_run] at h
    repeat' split at h
    all_goals first
      | injection h with h3
      | injection h
    all_goals subst h3
    all_goals
      simp only [Tick.idle_noise_adapt_min_duration, Tick.idle_noise_adapt_corr_peak,
        Tick.idle_noise_adapt_corr_noise_floor, Tick.idle_noise_adapt_tick_duration_frames] at *
    all_goals assumption
  · rw [h] at hm
    exact Tick.TickEmit.noConfusion hm

/-- Claim C2 witness: the mid-pulse state c2_td0 completes a 5 ms pulse at
frame 100 and emits a tick event satisfying the guard. -/
theorem c2_tick_event_guard_witness :
    (Tick.tick_state_machine_run 1 c2_td0).2 =
      Tick.TickEmit.tick ⟨1, 100, 0, 5, 1, 0, 1 / 100, 10, 10⟩ ∧
    ((5 : ℚ) ≥ c2_td0.min_duration_ms ∧ (5 : ℚ) ≤ Tick.TICK_MAX_DURATION_MS ∧
      (10 : ℚ) > c2_td0.corr_noise_floor * Tick.CORR_THRESHOLD_MULT) := by
  have h : (Tick.tick_state_machine_run 1 c2_td0).2 =
      Tick.TickEmit.tick ⟨1, 100, 0, 5, 1, 0, 1 / 100, 10, 10⟩ := by
    norm_num [Tick.tick_state_machine_run, c2_td0, Tick.tick_detector_create_state,
      Tick.idle_noise_adapt, Tick.gate_after_recovery_check, Tick.tick_calculate_avg_interval,
      Tick.TICK_MAX_DURATION_MS, Tick.MARKER_MIN_DURATION_MS, Tick.MARKER_MAX_DURATION_MS,
      Tick.MARKER_MAX_DURATION_MS_CHECK, Tick.MARKER_MIN_INTERVAL_MS, Tick.CORR_THRESHOLD_MULT,
      Tick.TICK_THRESHOLD_MULT, Tick.TICK_HYSTERESIS, Tick.TICK_MIN_DURATION_MS,
      Tick.TICK_FLASH_FRAMES, Tick.ms_to_frames, Tick.TICK_COOLDOWN_MS,
      Tick.NOISE_FLOOR_MIN, Tick.NOISE_FLOOR_MAX, Tick.TICK_NOISE_ADAPT_DOWN,
      Tick.TICK_NOISE_ADAPT_UP, Tick.TICK_AVG_WINDOW_MS, Tick.TICK_HISTORY_SIZE,
      Tick.TICK_FILTER_DELAY_MS, ratTrunc,
      (by decide : Tick.TickFsm.in_tick ≠ Tick.TickFsm.idle)]
  exact ⟨h, (c2_tick_event_guard 1 c2_td0 ⟨1, 100, 0, 5, 1, 0, 1 / 100, 10, 10⟩ h).1⟩

/-- Claim C3: with the gate enabled and not in recovery mode, an
IDLE-to-IN_TICK transition at frame time t happens only when
(t - epoch_ms) mod 1000 normalised into [0, 1000) lies in the window
[TICK_GATE_START_MS, TICK_GATE_END_MS] = [0, 100]; when the gate is
enabled, the detector idle, and GATE_RECOVERY_MS = 5000 ms have elapsed
since the last gate-accepted tick, the frame enters recovery mode; and
recovery mode bypasses the gate entirely. -/
theorem c3_timing_gate :
    (∀ (fd : ℚ) (td : Tick.TickState), td.state = Tick.TickFsm.idle →
      (Tick.tick_state_machine_run fd td).1.state = Tick.TickFsm.in_tick →
      td.gate.enabled = true →
      (Tick.gate_after_recovery_check fd td).recovery_mode = false →
      Tick.TICK_GATE_START_MS ≤ Tick.ms_into_second td.gate.epoch_ms ((td.frame_count : ℚ) * fd) ∧
        Tick.ms_into_second td.gate.epoch_ms ((td.frame_count : ℚ) * fd) ≤ Tick.TICK_GATE_END_MS) ∧
    (∀ (fd : ℚ) (td : Tick.TickState), td.warmup_complete = true →
      td.state = Tick.TickFsm.idle → td.gate.enabled = true →
      td.gate.recovery_mode = false → td.gate.last_tick_frame_gated > 0 →
      ((td.frame_count : ℚ) - (td.gate.last_tick_frame_gated : ℚ)) * fd ≥ Tick.GATE_RECOVERY_MS →
      (Tick.tick_state_machine_run fd td).1.gate.recovery_mode = true) ∧
    (∀ (td : Tick.TickState) (ms : ℚ), td.gate.recovery_mode = true →
      Tick.tick_state_is_gate_open td ms = true) := by
  refine ⟨Tick.tick_gate_window_of_transition, Tick.tick_recovery_entry, ?_⟩
  intro td ms h
  unfold Tick.tick_state_is_gate_open
  split_ifs with h1 h2
  all_goals first | rfl | exact absurd h h2

/-- Claim C3 witness: the gated idle state c3_td0 transitions at an in-window
frame time; c3_td1 (6000 ms since the last gated tick) enters recovery; and
a recovery-mode gate is open at an arbitrary time. -/
theorem c3_timing_gate_witness :
    (Tick.tick_state_machine_run 1 c3_td0).1.state = Tick.TickFsm.in_tick ∧
    (Tick.TICK_GATE_START_MS ≤
        Tick.ms_into_second c3_td0.gate.epoch_ms ((c3_td0.frame_count : ℚ) * 1) ∧
      Tick.ms_into_second c3_td0.gate.epoch_ms ((c3_td0.frame_count : ℚ) * 1) ≤
        Tick.TICK_GATE_END_MS) ∧
    (Tick.tick_state_machine_run 1 c3_td1).1.gate.recovery_mode = true ∧
    Tick.tick_state_is_gate_open c3_td2 123 = true := by
  have htrans : (Tick.tick_state_machine_run 1 c3_td0).1.state = Tick.TickFsm.in_tick := by
    norm_num [Tick.tick_state_machine_run, c3_td0, Tick.tick_detector_create_state,
      Tick.idle_noise_adapt, Tick.gate_after_recovery_check, Tick.tick_state_is_gate_open,
      Tick.ms_into_second, fmodf, ratTrunc, Tick.TICK_GATE_START_MS, Tick.TICK_GATE_END_MS,
      Tick.GATE_RECOVERY_MS, Tick.NOISE_FLOOR_MIN, Tick.NOISE_FLOOR_MAX,
      Tick.TICK_NOISE_ADAPT_DOWN, Tick.TICK_NOISE_ADAPT_UP, Tick.TICK_THRESHOLD_MULT,
      Tick.TICK_HYSTERESIS, decide_eq_true_eq]
  have hrec : (Tick.gate_after_recovery_check 1 c3_td0).recovery_mode = false := by
    norm_num [Tick.gate_after_recovery_check, c3_td0, Tick.tick_detector_create_state,
      Tick.GATE_RECOVERY_MS]
  refine ⟨htrans, c3_timing_gate.1 1 c3_td0 rfl htrans rfl hrec,
    c3_timing_gate.2.1 1 c3_td1 rfl rfl rfl rfl (by decide) ?_,
    c3_timing_gate.2.2 c3_td2 123 rfl⟩
  norm_num [c3_td1, Tick.tick_detector_create_state, Tick.GATE_RECOVERY_MS]

/-- Claim C4 counterexample: the clamp claim fails during warmup.  One
energy-100 warmup frame drives the tick noise floor to 5.0095, above
NOISE_FLOOR_MAX = 5.0 (the warmup path applies only the lower clamp); and
120 all-zero frames decay the marker baseline to 0.01 * 0.98^120 < 0.001
(the warmup baseline has no lower clamp). -/
theorem c4_clamp_ce :
    Tick.NOISE_FLOOR_MAX < (Tick.tick_state_machine_run 1 c4_tick_warm_state).1.noise_floor ∧
    (c4_marker_zero_run 120).baseline_energy < 1 / 1000 := by
  constructor
  · norm_num [Tick.tick_state_machine_run, c4_tick_warm_state, Tick.tick_detector_create_state,
      Tick.TICK_WARMUP_ADAPT_RATE, Tick.NOISE_FLOOR_MIN, Tick.NOISE_FLOOR_MAX,
      Tick.TICK_WARMUP_FRAMES, Tick.TICK_THRESHOLD_MULT, Tick.TICK_HYSTERESIS]
  · rw [(c4_marker_zero_invariant 120 (by norm_num)).1]
    norm_num

/-- Claim C4 amended: the tick noise floor never leaves NOISE_FLOOR_MIN
from below (warmup included); it stays at or below NOISE_FLOOR_MAX on a
warmed-up idle below-threshold frame; and the marker baseline respects its
0.001 lower clamp on warmed-up idle frames past MARKER_MIN_STARTUP_MS.
During warmup only the tick lower clamp applies, and the marker baseline
is unclamped. -/
theorem c4_clamp_amended :
    (∀ (fd : ℚ) (td : Tick.TickState), Tick.NOISE_FLOOR_MIN ≤ td.noise_floor →
      Tick.NOISE_FLOOR_MIN ≤ (Tick.tick_state_machine_run fd td).1.noise_floor) ∧
    (∀ (fd : ℚ) (td : Tick.TickState), td.warmup_complete = true →
      td.state = Tick.TickFsm.idle → td.current_energy < td.threshold_high →
      (Tick.tick_state_machine_run fd td).1.noise_floor ≤ Tick.NOISE_FLOOR_MAX) ∧
    (∀ (W : ℕ) (fd : ℚ) (md : Marker.MarkerState), md.warmup_complete = true →
      ¬ ((md.frame_count : ℚ) * fd < Marker.MARKER_MIN_STARTUP_MS) →
      md.state = Marker.MarkerFsm.idle →
      1 / 1000 ≤ (Marker.marker_state_machine_run W fd md).1.baseline_energy) :=
  ⟨Tick.tick_run_floor_lower, Tick.tick_run_floor_upper, Marker.marker_run_baseline_lower⟩

/-- Claim C4 witness: the clamps hold at the creation state (frame duration
1 ms), after warmup on an idle quiet frame, and for the warmed-up marker
detector past startup. -/
theorem c4_clamp_witness :
    Tick.NOISE_FLOOR_MIN ≤ Tick.tick_detector_create_state.noise_floor ∧
    Tick.NOISE_FLOOR_MIN ≤
      (Tick.tick_state_machine_run 1 Tick.tick_detector_create_state).1.noise_floor ∧
    (Tick.tick_state_machine_run 1 c4_tick_idle_state).1.noise_floor ≤ Tick.NOISE_FLOOR_MAX ∧
    1 / 1000 ≤ (Marker.marker_state_machine_run 1 5 c4_marker_idle_state).1.baseline_energy := by
  have h0 : Tick.NOISE_FLOOR_MIN ≤ Tick.tick_detector_create_state.noise_floor := by
    norm_num [Tick.NOISE_FLOOR_MIN, Tick.tick_detector_create_state]
  refine ⟨h0, c4_clamp_amended.1 1 _ h0,
    c4_clamp_amended.2.1 1 c4_tick_idle_state rfl rfl ?_,
    c4_clamp_amended.2.2 1 5 c4_marker_idle_state rfl ?_ rfl⟩
  · norm_num [c4_tick_idle_state, Tick.tick_detector_create_state, Tick.TICK_THRESHOLD_MULT]
  · norm_num [c4_marker_idle_state, Marker.marker_detector_create_state,
      Marker.MARKER_MIN_STARTUP_MS]

/-- Claim C5: after any insertion sequence from the zeroed start, the
sliding-window accumulator of the marker detector and of the BCD frequency
detector equals the exact sum of the last min(n, W) inserted energies, and
inserting W zeros then W ones leaves the marker accumulator at W. -/
theorem c5_sliding_accumulator (W : ℕ) (hW : 0 < W) (xs : List ℚ)
    (fd0 : BcdFreq.BcdFreqState) (hinit : BcdFreq.quadOf fd0 = accInit W) :
    (xs.foldl (Marker.update_accumulator W)
        (Marker.marker_detector_create_state W)).accumulated_energy
      = (lastN (min xs.length W) xs).sum ∧
    (xs.foldl (BcdFreq.bcd_freq_update_accumulator W) fd0).accumulated_energy
      = (lastN (min xs.length W) xs).sum ∧
    ((List.replicate W (0 : ℚ) ++ List.replicate W 1).foldl (Marker.update_accumulator W)
        (Marker.marker_detector_create_state W)).accumulated_energy = (W : ℚ) := by
  have hm : Marker.quadOf (Marker.marker_detector_create_state W) = accInit W := rfl
  refine ⟨?_, ?_, ?_⟩
  · have h := marker_quadOf_foldl W (Marker.marker_detector_create_state W) xs
    rw [hm] at h
    calc (xs.foldl (Marker.update_accumulator W)
            (Marker.marker_detector_create_state W)).accumulated_energy
        = (Marker.quadOf (xs.foldl (Marker.update_accumulator W)
            (Marker.marker_detector_create_state W))).accum := rfl
      _ = (accInsertAll W (accInit W) xs).accum := by rw [h]
      _ = (lastN (min xs.length W) xs).sum := accInsertAll_accum W hW xs
  · have h := bcdfreq_quadOf_foldl W fd0 xs
    rw [hinit] at h
    calc (xs.foldl (BcdFreq.bcd_freq_update_accumulator W) fd0).accumulated_energy
        = (BcdFreq.quadOf (xs.foldl (BcdFreq.bcd_freq_update_accumulator W) fd0)).accum := rfl
      _ = (accInsertAll W (accInit W) xs).accum := by rw [h]
      _ = (lastN (min xs.length W) xs).sum := accInsertAll_accum W hW xs
  · have h := marker_quadOf_foldl W (Marker.marker_detector_create_state W)
      (List.replicate W (0 : ℚ) ++ List.replicate W 1)
    rw [hm] at h
    calc ((List.replicate W (0 : ℚ) ++ List.replicate W 1).foldl (Marker.update_accumulator W)
            (Marker.marker_detector_create_state W)).accumulated_energy
        = (accInsertAll W (accInit W)
            (List.replicate W (0 : ℚ) ++ List.replicate W 1)).accum := by
          rw [← h]
          rfl
      _ = (W : ℚ) := accInsertAll_roundtrip W hW

/-- Claim C5 witness: over a 3-frame window, inserting [2, 5] leaves both
accumulators at the sum of the last min(2, 3) energies. -/
theorem c5_sliding_accumulator_witness :
    0 < 3 ∧ BcdFreq.quadOf c5_freq0 = accInit 3 ∧
    (([2, 5] : List ℚ).foldl (Marker.update_accumulator 3)
        (Marker.marker_detector_create_state 3)).accumulated_energy
      = (lastN (min ([2, 5] : List ℚ).length 3) [2, 5]).sum ∧
    (([2, 5] : List ℚ).foldl (BcdFreq.bcd_freq_update_accumulator 3) c5_freq0).accumulated_energy
      = (lastN (min ([2, 5] : List ℚ).length 3) [2, 5]).sum :=
  ⟨by norm_num, rfl, (c5_sliding_accumulator 3 (by norm_num) [2, 5] c5_freq0 rfl).1,
    (c5_sliding_accumulator 3 (by norm_num) [2, 5] c5_freq0 rfl).2.1⟩

/-- Claim C6 counterexample: for the triplet alpha = 9.91, beta = 10.0,
gamma = 9.73 the parabolic offset is 0.5*(alpha - gamma)/(alpha - 2*beta +
gamma) = -0.25, not within 0.01 of +0.30 (the claimed sign is wrong: with
alpha > gamma and a negative denominator the offset is negative). -/
theorem c6_parabolic_ce :
    tone_parabolic_peak c6_triplet_mag 2 5 - 2 = -(1 / 4) ∧
    ¬ |(tone_parabolic_peak c6_triplet_mag 2 5 - 2) - 3 / 10| ≤ 1 / 100 := by
  constructor
  · rw [c6_triplet_eval]
    norm_num
  · rw [c6_triplet_eval]
    have h : (7 / 4 - 2 : ℚ) - 3 / 10 = -(11 / 20) := by norm_num
    rw [h, abs_neg, abs_of_nonneg (by norm_num : (0 : ℚ) ≤ 11 / 20)]
    norm_num

/-- Claim C6 amended: at an interior peak bin with |alpha - 2*beta + gamma|
at least 1e-10, tone_parabolic_peak returns bin + 0.5*(alpha - gamma) /
(alpha - 2*beta + gamma); for the triplet (9.91, 10.0, 9.73) the offset is
within 0.01 of -0.25. -/
theorem c6_parabolic_amended :
    (∀ (mag : ℤ → ℚ) (pb n : ℤ), ¬ (pb ≤ 0 ∨ pb ≥ n - 1) →
      1 / 10 ^ 10 ≤ |mag (pb - 1) - 2 * mag pb + mag (pb + 1)| →
      tone_parabolic_peak mag pb n
        = (pb : ℚ) + (1 / 2) * (mag (pb - 1) - mag (pb + 1))
            / (mag (pb - 1) - 2 * mag pb + mag (pb + 1))) ∧
    |(tone_parabolic_peak c6_triplet_mag 2 5 - 2) - (-(1 / 4))| ≤ 1 / 100 := by
  constructor
  · intro mag pb n h1 h2
    simp only [tone_parabolic_peak]
    rw [if_neg h1, if_neg (not_lt.mpr h2)]
  · rw [c6_triplet_eval]
    norm_num

/-- Claim C6 witness: the closed form applies to the concrete triplet at
bin 2 of a 5-bin spectrum. -/
theorem c6_parabolic_amended_witness :
    ¬ ((2 : ℤ) ≤ 0 ∨ (2 : ℤ) ≥ 5 - 1) ∧
    tone_parabolic_peak c6_triplet_mag 2 5
      = (2 : ℚ) + (1 / 2) * (c6_triplet_mag (2 - 1) - c6_triplet_mag (2 + 1))
          / (c6_triplet_mag (2 - 1) - 2 * c6_triplet_mag 2 + c6_triplet_mag (2 + 1)) := by
  have hd : c6_triplet_mag (2 - 1) - 2 * c6_triplet_mag 2 + c6_triplet_mag (2 + 1)
      = -(9 / 25) := by
    norm_num [c6_triplet_mag]
  refine ⟨by decide, c6_parabolic_amended.1 c6_triplet_mag 2 5 (by decide) ?_⟩
  rw [hd, abs_neg, abs_of_nonneg (by norm_num : (0 : ℚ) ≤ 9 / 25)]
  norm_num

/-- Claim C7 counterexample: fft_processor_create accepts the
non-power-of-two size 3, and the process guard accepts a block of the
wrong length (1 sample for a size-4 processor): the C function takes no
length argument at all. -/
theorem c7_fft_ce :
    (fft_processor_create 3 48000).isSome = true ∧
    ¬ spec_power_of_two_size 3 ∧
    fft_processor_process_accepts (fft_processor_create 4 48000)
      (Option.some [1]) (Option.some [1]) = true := by
  refine ⟨rfl, ?_, rfl⟩
  rintro ⟨k, hk⟩
  match k, hk with
  | 0, hk => simp at hk
  | Nat.succ m, hk =>
    rw [pow_succ] at hk
    have h2 : (0 : ℤ) < 2 ^ m := by positivity
    omega

/-- Claim C7 amended: fft_processor_create rejects exactly fft_size <= 0 or
sample_rate <= 0 (there is no power-of-two test), and
fft_processor_process rejects exactly null pointers (it has no length
check). -/
theorem c7_fft_error_handling :
    (∀ (n : ℤ) (r : ℚ), n ≤ 0 ∨ r ≤ 0 → fft_processor_create n r = Option.none) ∧
    (∀ (n : ℤ) (r : ℚ), 0 < n → 0 < r →
      fft_processor_create n r = Option.some ⟨n, r, r / (n : ℚ)⟩) ∧
    (∀ (p : FftProcessor) (i q : List ℚ),
      fft_processor_process_accepts (Option.some p) (Option.some i) (Option.some q) = true) ∧
    (∀ (i q : Option (List ℚ)), fft_processor_process_accepts Option.none i q = false) := by
  refine ⟨?_, ?_, fun p i q => rfl, fun i q => rfl⟩
  · intro n r h
    unfold fft_processor_create
    rw [if_pos h]
  · intro n r h1 h2
    unfold fft_processor_create
    rw [if_neg (by push_neg; exact ⟨h1, h2⟩)]

/-- Claim C7 witness: size 0 is rejected, size 1024 at 48 kHz is accepted
with hz_per_bin = 48000/1024, and the process guard distinguishes null
from non-null pointers. -/
theorem c7_fft_error_handling_witness :
    fft_processor_create 0 48000 = Option.none ∧
    fft_processor_create 1024 48000
      = Option.some ⟨1024, 48000, 48000 / ((1024 : ℤ) : ℚ)⟩ ∧
    fft_processor_process_accepts (Option.some ⟨1024, 48000, 48000 / ((1024 : ℤ) : ℚ)⟩)
      (Option.some [1]) (Option.some [2]) = true ∧
    fft_processor_process_accepts Option.none (Option.some [1]) (Option.some [2]) = false :=
  ⟨c7_fft_error_handling.1 0 48000 (Or.inl (by norm_num)),
    c7_fft_error_handling.2.1 1024 48000 (by norm_num) (by norm_num),
    c7_fft_error_handling.2.2.1 _ _ _, c7_fft_error_handling.2.2.2 _ _⟩

/-- Claim C8 counterexample: the marker setters are void C functions, so a
rejected out-of-range value (threshold multiplier 10 > 5) is
indistinguishable to the caller from an accepted call that leaves the same
state (multiplier 3 on the creation state): nothing is reported. -/
theorem c8_setter_ce :
    (10 : ℚ) > 5 ∧
    Marker.marker_detector_set_threshold_mult (Marker.marker_detector_create_state 4) 10
      = Marker.marker_detector_set_threshold_mult (Marker.marker_detector_create_state 4) 3 := by
  constructor
  · norm_num
  · rfl

/-- Claim C8 amended: every out-of-range tunable leaves the detector state
unchanged; the tick setters report the rejection by returning false, but
the marker setters are void and report nothing. -/
theorem c8_setter_rejection :
    (∀ (td : Tick.TickState) (v : ℚ), v < 1 ∨ v > 5 →
      Tick.tick_detector_set_threshold_mult td v = (td, false)) ∧
    (∀ (td : Tick.TickState) (v : ℚ), v < 1 ∨ v > 10 →
      Tick.tick_detector_set_min_duration_ms td v = (td, false)) ∧
    (∀ (md : Marker.MarkerState) (v : ℚ), v < 2 ∨ v > 5 →
      Marker.marker_detector_set_threshold_mult md v = md) ∧
    (∀ (md : Marker.MarkerState) (v : ℚ), v < 1 / 10000 ∨ v > 1 / 100 →
      Marker.marker_detector_set_noise_adapt_rate md v = md) ∧
    (∀ (md : Marker.MarkerState) (v : ℚ), v < 300 ∨ v > 700 →
      Marker.marker_detector_set_min_duration_ms md v = md) := by
  refine ⟨?_, ?_, ?_, ?_, ?_⟩ <;> intro s v h
  · unfold Tick.tick_detector_set_threshold_mult
    rw [if_pos h]
  · unfold Tick.tick_detector_set_min_duration_ms
    rw [if_pos h]
  · unfold Marker.marker_detector_set_threshold_mult
    rw [if_pos h]
  · unfold Marker.marker_detector_set_noise_adapt_rate
    rw [if_pos h]
  · unfold Marker.marker_detector_set_min_duration_ms
    rw [if_pos h]

/-- Claim C8 witness: each of the five setters rejects a concrete
out-of-range value on its creation state without mutation. -/
theorem c8_setter_rejection_witness :
    Tick.tick_detector_set_threshold_mult Tick.tick_detector_create_state 6
      = (Tick.tick_detector_create_state, false) ∧
    Tick.tick_detector_set_min_duration_ms Tick.tick_detector_create_state 11
      = (Tick.tick_detector_create_state, false) ∧
    Marker.marker_detector_set_threshold_mult (Marker.marker_detector_create_state 2) 6
      = Marker.marker_detector_create_state 2 ∧
    Marker.marker_detector_set_noise_adapt_rate (Marker.marker_detector_create_state 2) 1
      = Marker.marker_detector_create_state 2 ∧
    Marker.marker_detector_set_min_duration_ms (Marker.marker_detector_create_state 2) 299
      = Marker.marker_detector_create_state 2 :=
  ⟨c8_setter_rejection.1 _ 6 (Or.inr (by norm_num)),
    c8_setter_rejection.2.1 _ 11 (Or.inr (by norm_num)),
    c8_setter_rejection.2.2.1 _ 6 (Or.inr (by norm_num)),
    c8_setter_rejection.2.2.2.1 _ 1 (Or.inr (by norm_num)),
    c8_setter_rejection.2.2.2.2 _ 299 (Or.inl (by norm_num))⟩

/-- Claim C9: for every epoch_ms (negative and >= 1000 included), source
and confidence, tick_detector_set_epoch_with_source stores a gate epoch in
[0, 1000) congruent to epoch_ms modulo 1000 and leaves the gate enabled
flag untouched. -/
theorem c9_epoch_normalization (td : Tick.TickState) (epoch_ms : ℚ)
    (src : Tick.EpochSource) (conf : ℚ) :
    0 ≤ (Tick.tick_detector_set_epoch_with_source td epoch_ms src conf).gate.epoch_ms ∧
    (Tick.tick_detector_set_epoch_with_source td epoch_ms src conf).gate.epoch_ms < 1000 ∧
    (∃ k : ℤ, epoch_ms -
      (Tick.tick_detector_set_epoch_with_source td epoch_ms src conf).gate.epoch_ms
      = 1000 * k) ∧
    (Tick.tick_detector_set_epoch_with_source td epoch_ms src conf).gate.enabled
      = td.gate.enabled := by
  unfold Tick.tick_detector_set_epoch_with_source
  dsimp only
  obtain ⟨⟨hlo, hhi⟩, hpos, hneg, ⟨k, hk⟩⟩ :=
    fmodf_bounds (x := epoch_ms) (y := 1000) (by norm_num)
  by_cases hm : fmodf epoch_ms 1000 < 0
  · rw [if_pos hm]
    refine ⟨by linarith, by linarith, ⟨k - 1, by push_cast; linarith⟩, rfl⟩
  · rw [if_neg hm]
    push_neg at hm
    refine ⟨hm, by linarith, ⟨k, hk⟩, rfl⟩

/-- Claim C10: the two duplicated window-close routines compute the same
correlator state, and whenever close_window (bcd_correlator.c) emits an
event, bcd_window_close (bcd_window_manager.c) emits that same event
(same symbol, confidence, duration estimate and source); they differ only
in emission policy: bcd_window_close fires the callback on every close of
an open window, NONE symbols included, while close_window fires only for
non-NONE symbols, as the all-zero window c10_w0 shows concretely. -/
theorem c10_window_close_refinement :
    (∀ w : BcdCorrelator, (bcd_window_close w).1 = (close_window w).1) ∧
    (∀ w : BcdCorrelator, w.window_open = true → ((bcd_window_close w).2).isSome = true) ∧
    (∀ (w : BcdCorrelator) (e : BcdSymbolEvent), (close_window w).2 = Option.some e →
      e.symbol ≠ BcdCorrSymbol.sym_none) ∧
    (∀ (w : BcdCorrelator) (e : BcdSymbolEvent), (close_window w).2 = Option.some e →
      (bcd_window_close w).2 = Option.some e) ∧
    (bcd_window_close c10_w0).2
      = Option.some ⟨BcdCorrSymbol.sym_none, 500, 0, 0, BcdSourceTag.src_none⟩ ∧
    (close_window c10_w0).2 = Option.none := by
  refine ⟨?_, ?_, ?_, ?_, ?_, ?_⟩
  · intro w
    unfold bcd_window_close close_window
    by_cases h : w.window_open
    · have hc : ¬¬(w.window_open = true) := by simp [h]
      rw [if_neg hc, if_neg hc]
    · have hc : ¬(w.window_open = true) := by simp [h]
      rw [if_pos hc, if_pos hc]
  · intro w h
    unfold bcd_window_close
    have hc : ¬¬(w.window_open = true) := by simp [h]
    rw [if_neg hc]
    rfl
  · intro w e h
    unfold close_window at h
    split at h
    · simp at h
    · dsimp only at h
      repeat' split at h
      all_goals first
        | (injection h with he; subst he; assumption)
        | injection h
        | simp at h
  · intro w e h
    unfold close_window at h
    unfold bcd_window_close
    split at h
    · simp at h
    · rename_i hop
      rw [if_neg hop]
      dsimp only at h ⊢
      rcases ite_eq_iff.mp h with ⟨hC, hsome⟩ | ⟨hC, hnone⟩
      · exact hsome
      · simp at hnone
  · norm_num [bcd_window_close, c10_w0, bcd_window_estimate_pulse_duration,
      WINDOW_DURATION_MS, MIN_EVENTS_FOR_SYMBOL, ENERGY_THRESHOLD_LOW]
  · norm_num [close_window, c10_w0, bcd_window_estimate_pulse_duration,
      WINDOW_DURATION_MS, MIN_EVENTS_FOR_SYMBOL, ENERGY_THRESHOLD_LOW,
      bcd_symbol_classify_duration]

/-- Claim C10 witness: the two-TIME-event window c10_w1 makes both
routines emit the identical ZERO event c10_ev1. -/
theorem c10_window_close_refinement_witness :
    c10_w1.window_open = true ∧
    ((bcd_window_close c10_w1).2).isSome = true ∧
    (close_window c10_w1).2 = Option.some c10_ev1 ∧
    c10_ev1.symbol ≠ BcdCorrSymbol.sym_none ∧
    (bcd_window_close c10_w1).2 = Option.some c10_ev1 := by
  have hemit : (close_window c10_w1).2 = Option.some c10_ev1 := by
    norm_num [close_window, c10_w1, c10_ev1, bcd_window_estimate_pulse_duration,
      WINDOW_DURATION_MS, MIN_EVENTS_FOR_SYMBOL, ENERGY_THRESHOLD_LOW,
      bcd_symbol_classify_duration, BCD_SYMBOL_ZERO_MAX_MS]
    exact fun hc => absurd hc (by decide)
  exact ⟨rfl, c10_window_close_refinement.2.1 c10_w1 rfl, hemit,
    c10_window_close_refinement.2.2.1 c10_w1 c10_ev1 hemit,
    c10_window_close_refinement.2.2.2.1 c10_w1 c10_ev1 hemit⟩

end PhoenixWWV
